import Mathlib

/-!
Verification development for the property-registry chatbot.

The SQL guardrail pipeline (`pre_execution_validation.py`), the read-only
execution wrapper (`db.py`), the repair loop, the query classifier and
routing (`query_classifier.py`, `graph.py`), the conversation memory
(`memory.py`) and the map/note flows (`map.py`, `graph.py`) are shallowly
embedded below.  Strings are modelled as `List Char` with Python string
semantics (ASCII case mapping, Python whitespace).  The sqlglot parser and
serializer are external collaborators: they are modelled as parameters
`parse : String -> Except String SqlNode` and `serialize : SqlNode -> String`,
while every check the repository itself performs on the parsed tree is
translated function-by-function from the source.
-/

namespace PBCHS

/-- Python whitespace characters (`str.strip` / `\s`): space, tab, LF, CR,
vertical tab, form feed. -/
def pySpace (c : Char) : Bool :=
  c = ' ' || c = '\t' || c = '\n' || c = '\r' || c = '\x0b' || c = '\x0c'

/-- `str.lstrip()`. -/
def lstripL (l : List Char) : List Char := l.dropWhile pySpace

/-- `str.rstrip()`. -/
def rstripL (l : List Char) : List Char := (l.reverse.dropWhile pySpace).reverse

/-- `str.strip()`. -/
def stripL (l : List Char) : List Char := rstripL (lstripL l)

/-- `str.upper()` (ASCII). -/
def upperL (l : List Char) : List Char := l.map Char.toUpper

/-- `str.lower()` (ASCII). -/
def lowerL (l : List Char) : List Char := l.map Char.toLower

/-- Substring containment, Python `pat in s`. -/
def listContains (pat : List Char) : List Char → Bool
  | [] => pat.isEmpty
  | c :: t => pat.isPrefixOf (c :: t) || listContains pat t

/-- Case-insensitive prefix match against a pattern given in lower case
(`re.IGNORECASE` literal matching). -/
def ciPrefix : List Char → List Char → Bool
  | [], _ => true
  | _ :: _, [] => false
  | a :: p, b :: s => (b.toLower = a) && ciPrefix p s

/-- Helper for `removeAllCI`: while `skip > 0`, discard characters (the
rest of a matched occurrence); at `skip = 0`, either a (case-insensitive)
occurrence of `p` starts here — drop its first character and schedule the
remaining `p.length - 1` for discarding — or keep the character.  This is
structural recursion on the string. -/
def removeAllCIAux (p : List Char) : Nat → List Char → List Char
  | _ + 1, [] => []
  | skip + 1, _ :: t => removeAllCIAux p skip t
  | 0, [] => []
  | 0, c :: t =>
    if ciPrefix p (c :: t) ∧ p ≠ [] then removeAllCIAux p (p.length - 1) t
    else c :: removeAllCIAux p 0 t

/-- `re.sub(pat, "", s)` for a literal pattern `pat` (given lower-case),
matched case-insensitively, leftmost non-overlapping occurrences removed. -/
def removeAllCI (p s : List Char) : List Char := removeAllCIAux p 0 s

-- -----------------------------
-- Allow-lists (pre_execution_validation.py)
-- -----------------------------

/-- `DANGEROUS_KEYWORDS` (a Python set; iteration order is unspecified there,
a fixed order is used here — only the success/failure outcome matters). -/
def DANGEROUS_KEYWORDS : List String :=
  ["DELETE", "UPDATE", "INSERT", "DROP", "TRUNCATE", "ALTER", "CREATE"]

/-- `ALLOWED_TABLES`. -/
def ALLOWED_TABLES : List String :=
  ["properties", "property_addresses", "persons", "ownership_records",
   "ownership_sellers", "current_owners", "current_owner_sellers",
   "sale_deeds", "construction_details", "legal_details",
   "share_certificates", "club_memberships", "misc_documents"]

/-- `ALLOWED_COLUMNS` as a partial map (`dict.get`). -/
def ALLOWED_COLUMNS : String → Option (List String)
  | "properties" =>
      some ["id", "pra", "file_no", "file_name", "file_link", "qc_status"]
  | "property_addresses" =>
      some ["id", "property_id", "plot_no", "road_no", "street_name",
            "initial_plot_size", "source_page", "flag"]
  | "persons" =>
      some ["id", "pra", "name", "dob", "family_members", "address",
            "phone_number", "email", "pan", "aadhaar", "img_link",
            "occupation", "source_page", "person_source", "flag"]
  | "ownership_records" =>
      some ["id", "property_id", "buyer_id", "sale_deed_id", "transfer_type",
            "buyer_portion", "total_stamp_duty_paid", "notes", "source_page",
            "flag"]
  | "ownership_sellers" =>
      some ["ownership_id", "person_id"]
  | "current_owners" =>
      some ["id", "property_id", "buyer_id", "buyer_portion", "source_page",
            "flag"]
  | "current_owner_sellers" =>
      some ["current_owner_id", "person_id"]
  | "sale_deeds" =>
      some ["id", "person_id", "property_id", "sale_deed_no", "book_no",
            "page_no", "signing_date", "registry_status",
            "owners_portion_sold", "total_property_portion_sold",
            "source_page", "pdf_link", "flag"]
  | "construction_details" =>
      some ["id", "property_id", "coverage_built_up_area",
            "circle_rate_colony", "land_price_per_sqm",
            "construction_price_per_sqm", "total_covered_area",
            "source_page", "pdf_link", "flag"]
  | "legal_details" =>
      some ["id", "property_id", "registrar_office", "court_cases",
            "source_page", "pdf_link", "flag"]
  | "share_certificates" =>
      some ["id", "certificate_number", "property_id", "member_id",
            "date_of_transfer", "date_of_ending", "notes", "source_page",
            "pdf_link", "flag"]
  | "club_memberships" =>
      some ["id", "member_id", "property_id", "allocation_date",
            "membership_end_date", "membership_number", "source_page",
            "pdf_link", "flag"]
  | "misc_documents" =>
      some ["id", "property_id", "pra"]
  | _ => none

/-- `any(name in cols for cols in ALLOWED_COLUMNS.values())`: the keys of
`ALLOWED_COLUMNS` are exactly `ALLOWED_TABLES`. -/
def bareColumnAllowed (name : String) : Bool :=
  ALLOWED_TABLES.any (fun t => ((ALLOWED_COLUMNS t).getD []).contains name)

-- -----------------------------
-- sqlglot expression trees (shallow model)
-- -----------------------------

/-- A shallow model of the sqlglot expression tree, restricted to the node
kinds the guardrail inspects: column references (`exp.Column`, with an
optional qualifier), literals, aggregate functions (`exp.AggFunc`), ordinary
functions, expression aliases (`exp.Alias`), table references (`exp.Table`,
with an optional alias), derived tables / subqueries (`exp.Subquery`, with an
optional alias), SELECT statements (`exp.Select`, with an optional LIMIT
clause) and WITH wrappers (`exp.With`). -/
inductive SqlNode where
  | col (qualifier : Option String) (name : String)
  | lit (v : String)
  | agg (fn : String) (args : List SqlNode)
  | func (fn : String) (args : List SqlNode)
  | aliasE (body : SqlNode) (name : String)
  | tbl (name : String) (al : Option String)
  | derived (body : SqlNode) (al : Option String)
  | selectQ (projections : List SqlNode) (fromItems : List SqlNode)
      (whereGroupHaving : List SqlNode) (lim : Option Nat)
  | withQ (body : SqlNode)

mutual
/-- `ast.find_all(exp.Table)`: every table node in the whole tree, with its
alias as extracted by `_table_alias_name`. -/
def findTables : SqlNode → List (String × Option String)
  | .col _ _ => []
  | .lit _ => []
  | .agg _ args => findTablesL args
  | .func _ args => findTablesL args
  | .aliasE b _ => findTables b
  | .tbl n a => [(n, a)]
  | .derived b _ => findTables b
  | .selectQ ps fs ws _ => findTablesL ps ++ findTablesL fs ++ findTablesL ws
  | .withQ b => findTables b

def findTablesL : List SqlNode → List (String × Option String)
  | [] => []
  | n :: ns => findTables n ++ findTablesL ns
end

mutual
/-- `ast.find_all(exp.Column)`: every column node in the whole tree, as
(qualifier, name). -/
def findColumns : SqlNode → List (Option String × String)
  | .col q n => [(q, n)]
  | .lit _ => []
  | .agg _ args => findColumnsL args
  | .func _ args => findColumnsL args
  | .aliasE b _ => findColumns b
  | .tbl _ _ => []
  | .derived b _ => findColumns b
  | .selectQ ps fs ws _ => findColumnsL ps ++ findColumnsL fs ++ findColumnsL ws
  | .withQ b => findColumns b

def findColumnsL : List SqlNode → List (Option String × String)
  | [] => []
  | n :: ns => findColumns n ++ findColumnsL ns
end

mutual
/-- `_collect_select_aliases`: every expression-alias name in the tree
(skipping falsy/empty names, as the Python truthiness check does). -/
def findSelectAliases : SqlNode → List String
  | .col _ _ => []
  | .lit _ => []
  | .agg _ args => findSelectAliasesL args
  | .func _ args => findSelectAliasesL args
  | .aliasE b n => (if n = "" then [] else [n]) ++ findSelectAliases b
  | .tbl _ _ => []
  | .derived b _ => findSelectAliases b
  | .selectQ ps fs ws _ =>
      findSelectAliasesL ps ++ findSelectAliasesL fs ++ findSelectAliasesL ws
  | .withQ b => findSelectAliases b

def findSelectAliasesL : List SqlNode → List String
  | [] => []
  | n :: ns => findSelectAliases n ++ findSelectAliasesL ns
end

mutual
/-- `_collect_subquery_aliases`: every derived-table/subquery alias in the
tree (skipping falsy/empty names). -/
def findSubqueryAliases : SqlNode → List String
  | .col _ _ => []
  | .lit _ => []
  | .agg _ args => findSubqueryAliasesL args
  | .func _ args => findSubqueryAliasesL args
  | .aliasE b _ => findSubqueryAliases b
  | .tbl _ _ => []
  | .derived b a =>
      (match a with
       | some x => if x = "" then [] else [x]
       | none => []) ++ findSubqueryAliases b
  | .selectQ ps fs ws _ =>
      findSubqueryAliasesL ps ++ findSubqueryAliasesL fs ++ findSubqueryAliasesL ws
  | .withQ b => findSubqueryAliases b

def findSubqueryAliasesL : List SqlNode → List String
  | [] => []
  | n :: ns => findSubqueryAliases n ++ findSubqueryAliasesL ns
end

mutual
/-- `select.find_all(exp.AggFunc)` is non-empty: some aggregate-function node
occurs anywhere in the subtree (select list, WHERE/GROUP BY/HAVING, nested
subqueries — `find_all` recurses through all of them). -/
def hasAggNode : SqlNode → Bool
  | .col _ _ => false
  | .lit _ => false
  | .agg _ _ => true
  | .func _ args => hasAggNodeL args
  | .aliasE b _ => hasAggNode b
  | .tbl _ _ => false
  | .derived b _ => hasAggNode b
  | .selectQ ps fs ws _ => hasAggNodeL ps || hasAggNodeL fs || hasAggNodeL ws
  | .withQ b => hasAggNode b

def hasAggNodeL : List SqlNode → Bool
  | [] => false
  | n :: ns => hasAggNode n || hasAggNodeL ns
end

mutual
/-- Number of LIMIT clauses in the tree. -/
def limitCount : SqlNode → Nat
  | .col _ _ => 0
  | .lit _ => 0
  | .agg _ args => limitCountL args
  | .func _ args => limitCountL args
  | .aliasE b _ => limitCount b
  | .tbl _ _ => 0
  | .derived b _ => limitCount b
  | .selectQ ps fs ws lim =>
      (if lim.isSome then 1 else 0) + limitCountL ps + limitCountL fs + limitCountL ws
  | .withQ b => limitCount b

def limitCountL : List SqlNode → Nat
  | [] => 0
  | n :: ns => limitCount n + limitCountL ns
end

/-- An aggregate function appears at the top level of some SELECT-list entry
(the select list proper, possibly under its output alias) — this is the
reading used by the specification sentence for limit enforcement. -/
def hasAggInSelectList : SqlNode → Bool
  | .selectQ ps _ _ _ =>
      ps.any (fun p =>
        match p with
        | .agg _ _ => true
        | .aliasE (.agg _ _) _ => true
        | _ => false)
  | _ => false

-- -----------------------------
-- Table/column whitelist guard (`_guard_tables_and_columns`)
-- -----------------------------

/-- The `find_all` views of a statement that the whitelist guard consumes. -/
structure SqlAst where
  tables : List (String × Option String)
  columns : List (Option String × String)
  selectAliases : List String
  subqueryAliases : List String

/-- Extract the guard's view from a parsed tree. -/
def astOf (n : SqlNode) : SqlAst :=
  ⟨findTables n, findColumns n, findSelectAliases n, findSubqueryAliases n⟩

/-- The `alias_map`: for each table node (in traversal order) record
`real -> real`, then `alias -> real` when a (truthy) alias exists.  Later
writes shadow earlier ones (Python dict assignment), which the head-first
`List.lookup` of a cons-reversed association list reproduces. -/
def buildAliasMap (tables : List (String × Option String)) : List (String × String) :=
  tables.foldl
    (fun m t =>
      let m1 := (t.1, t.1) :: m
      match t.2 with
      | some a => if a = "" then m1 else (a, t.1) :: m1
      | none => m1)
    []

/-- `col.table or None`: an empty qualifier counts as absent. -/
def qualifierOf (q : Option String) : Option String :=
  match q with
  | some s => if s = "" then none else some s
  | none => none

/-- The table loop: every referenced real table name must be whitelisted.
(Python iterates over the *set* of names; only success/failure matters.) -/
def checkTablesL : List String → Except String Unit
  | [] => .ok ()
  | n :: rest =>
    if ALLOWED_TABLES.contains n then checkTablesL rest
    else .error ("Table '" ++ n ++ "' is not in the allowed whitelist.")

/-- One iteration of the column loop. -/
def checkColumn (amap : List (String × String)) (selA subA : List String)
    (c : Option String × String) : Except String Unit :=
  let name := c.2
  match qualifierOf c.1 with
  | none =>
    if selA.contains name then .ok ()
    else if bareColumnAllowed name then .ok ()
    else .error ("Bare column '" ++ name ++ "' is not allowed.")
  | some q =>
    match amap.lookup q with
    | some real =>
      if real = "" then
        -- `if not real_table` also treats an empty resolved name as missing
        if subA.contains q then .ok ()
        else .error ("Unknown table/alias '" ++ q ++ "' used in column '" ++
                     q ++ "." ++ name ++ "'.")
      else
        match ALLOWED_COLUMNS real with
        | none => .error ("Table '" ++ real ++ "' has no allowed-column config.")
        | some allowed =>
          if allowed.contains name then .ok ()
          else .error ("Column '" ++ real ++ "." ++ name ++ "' is not allowed.")
    | none =>
      if subA.contains q then .ok ()
      else .error ("Unknown table/alias '" ++ q ++ "' used in column '" ++
                   q ++ "." ++ name ++ "'.")

/-- The column loop. -/
def checkColumnsL (amap : List (String × String)) (selA subA : List String) :
    List (Option String × String) → Except String Unit
  | [] => .ok ()
  | c :: rest =>
    match checkColumn amap selA subA c with
    | .ok _ => checkColumnsL amap selA subA rest
    | .error e => .error e

/-- `_guard_tables_and_columns` over the `find_all` views of the statement. -/
def guard_tables_and_columns (a : SqlAst) : Except String Unit :=
  let amap := buildAliasMap a.tables
  match checkTablesL (a.tables.map Prod.fst) with
  | .error e => .error e
  | .ok _ => checkColumnsL amap a.selectAliases a.subqueryAliases a.columns

-- -----------------------------
-- LIMIT enforcement (`_enforce_limit`)
-- -----------------------------

/-- `\w` (ASCII). -/
def wordChar (c : Char) : Bool := c.isAlphanum || c = '_'

/-- Helper for `re.search(r"\bW\b", s, re.IGNORECASE)` with a literal
all-word-character pattern `w` (given lower-case): scan with the previous
character as boundary context. -/
def hasWordCIAux (w : List Char) : Option Char → List Char → Bool
  | _, [] => false
  | prev, c :: t =>
    ((match prev with | none => true | some p => !wordChar p) &&
     ciPrefix w (c :: t) &&
     (match (c :: t).drop w.length with
      | [] => true
      | d :: _ => !wordChar d)) ||
    hasWordCIAux w (some c) t

/-- `re.search(r"\bW\b", s, re.IGNORECASE)` for a literal word `w`. -/
def hasWordCI (w s : List Char) : Bool := hasWordCIAux w none s

/-- `str.strip()` on `String`. -/
def stripS (s : String) : String := String.mk (stripL s.data)

/-- `_enforce_limit`'s main-select extraction: the top level must be a
Select, a Subquery or a With; a With/Subquery is unwrapped one level and the
result must be a Select. -/
def mainSelect : SqlNode → Option SqlNode
  | s@(.selectQ _ _ _ _) => some s
  | .withQ b =>
    (match b with
     | s@(.selectQ _ _ _ _) => some s
     | _ => none)
  | .derived b _ =>
    (match b with
     | s@(.selectQ _ _ _ _) => some s
     | _ => none)
  | _ => none

/-- `_enforce_limit`.  `parse`/`serialize` model `sqlglot.parse_one` /
`.sql(dialect="postgres")`.  In Python a parse failure in the LIMIT-present
branch escapes as a raw `ParseError` rather than an `SQLValidationError`;
both prevent any SQL from being produced and are modelled as `.error`.
First, `raw`: strip, then strip one trailing semicolon. -/
def enforceRaw (sql : String) : List Char :=
  let raw0 := stripL sql.data
  if raw0.getLast? = some ';' then stripL raw0.dropLast else raw0

/-- The rest of `_enforce_limit` (see `enforceRaw`). -/
def enforce_limit (parse : String → Except String SqlNode)
    (serialize : SqlNode → String) (sql : String)
    (defaultLimit : Nat := 100) : Except String String :=
  let raw := enforceRaw sql
  if hasWordCI ( "limit".data) raw then
    match parse (String.mk raw) with
    | .error e => .error ("ParseError: " ++ e)
    | .ok ast => .ok (stripS (serialize ast) ++ ";")
  else
    match parse (String.mk raw) with
    | .error e => .error ("SQL parse error while enforcing LIMIT: " ++ e)
    | .ok ast =>
      match mainSelect ast with
      | none => .error "Top-level query must be a SELECT."
      | some sel =>
        let normalized := stripS (serialize ast)
        if hasAggNode sel then .ok (normalized ++ ";")
        else .ok (normalized ++ " LIMIT " ++ toString defaultLimit ++ ";")

-- -----------------------------
-- `_clean_sql_one_statement` and `_cheap_keyword_guard`
-- -----------------------------

/-- `_clean_sql_one_statement`: strip markdown fences, enforce a single
statement, ensure exactly one trailing semicolon. -/
def clean_sql_one_statement (sql : String) : Except String String :=
  let c1 := removeAllCI ( "```sql".data) sql.data
  let c2 := removeAllCI ( "```".data) c1
  let cleaned := stripL c2
  if cleaned = [] then .error "Empty SQL query from LLM"
  else if cleaned.count ';' > 1 then
    .error "LLM produced multiple SQL statements; blocking."
  else
    let withSemi := if cleaned.getLast? = some ';' then cleaned else cleaned ++ [';']
    .ok (String.mk (stripL withSemi))

/-- The keyword loop of `_cheap_keyword_guard` (Python iterates a set; a
fixed order is used, only success/failure matters). -/
def checkDangerousL : List String → List Char → Except String Unit
  | [], _ => .ok ()
  | kw :: rest, upper =>
    if listContains kw.data upper then
      .error ("Disallowed keyword '" ++ kw ++ "' found in SQL.")
    else checkDangerousL rest upper

/-- `_cheap_keyword_guard`. -/
def cheap_keyword_guard (sql : String) : Except String Unit :=
  let upper := upperL sql.data
  if ( "SELECT".data).isPrefixOf (lstripL upper) then
    checkDangerousL DANGEROUS_KEYWORDS upper
  else .error "Only SELECT queries are allowed."

-- -----------------------------
-- `clean_and_validate_sql`
-- -----------------------------

/-- The debug record built by `clean_and_validate_sql` on success. -/
structure CvsDebug where
  original_sql : String
  cleaned_sql : String
  final_sql : String
  checks_applied : List String

/-- `clean_and_validate_sql`: the full validation pipeline.  A sqlglot
`ParseError` inside `_guard_tables_and_columns` is uncaught in Python (it is
not an `SQLValidationError`); it still prevents any SQL from being produced
and is modelled as `.error` with a distinguishing tag. -/
def clean_and_validate_sql (parse : String → Except String SqlNode)
    (serialize : SqlNode → String) (sql : String) :
    Except String (String × CvsDebug) :=
  match clean_sql_one_statement sql with
  | .error e => .error e
  | .ok cleaned =>
    match cheap_keyword_guard cleaned with
    | .error e => .error e
    | .ok _ =>
      match parse cleaned with
      | .error e => .error ("ParseError: " ++ e)
      | .ok ast =>
        match guard_tables_and_columns (astOf ast) with
        | .error e => .error e
        | .ok _ =>
          match enforce_limit parse serialize cleaned with
          | .error e => .error e
          | .ok limited =>
            .ok (limited,
                 { original_sql := sql
                   cleaned_sql := cleaned
                   final_sql := limited
                   checks_applied :=
                     ["clean_single_statement", "keyword_guard",
                      "table_column_whitelist", "limit_enforcer"] })

-- -----------------------------
-- db.py: `_remove_limit_clause` and `run_select`
-- -----------------------------

/-- `c.isDigit`-run helper: split a leading digit run. -/
def takeDigits (l : List Char) : List Char × List Char :=
  (l.takeWhile Char.isDigit, l.dropWhile Char.isDigit)

/-- `re.sub(r"\s*LIMIT\s+\d+\s*;?\s*$", "", sql, flags=re.IGNORECASE)`:
the anchored pattern matches a suffix of the form
whitespace* LIMIT whitespace+ digits+ whitespace* [;] whitespace*; the
leftmost match (maximal such suffix) is removed.  Implemented by parsing the
reversed string. -/
def removeLimitSuffix (l : List Char) : List Char :=
  let r0 := l.reverse
  let r1 := r0.dropWhile pySpace
  let r2 := match r1 with
            | ';' :: t => t
            | _ => r1
  let r3 := r2.dropWhile pySpace
  let (digits, r4) := takeDigits r3
  let r5 := r4.dropWhile pySpace
  if digits ≠ [] ∧ r5 ≠ r4 ∧ ( "timil".data).isPrefixOf (lowerL r5) then
    ((r5.drop 5).dropWhile pySpace).reverse
  else l

/-- `_remove_limit_clause`. -/
def remove_limit_clause (sql : String) : String :=
  let cleaned := removeLimitSuffix sql.data
  let cleaned2 := rstripL cleaned
  let out := if cleaned2.getLast? = some ';' then cleaned2 else cleaned2 ++ [';']
  String.mk out

/-- `run_select`, returning the SQL string actually sent to the database
engine (row results are external).  A guardrail rejection is re-raised as
`ValueError`, so no unvalidated SQL reaches the engine. -/
def run_select (parse : String → Except String SqlNode)
    (serialize : SqlNode → String) (query : String)
    (preserve_limit : Bool := false) : Except String String :=
  match clean_and_validate_sql parse serialize query with
  | .error e => .error ("Invalid SQL blocked by guardrails: " ++ e)
  | .ok (safe_sql, _) =>
    .ok (if preserve_limit then safe_sql else remove_limit_clause safe_sql)

-- -----------------------------
-- LLM-based repair loop (`validate_and_maybe_regenerate_sql`)
-- -----------------------------

/-- Insertion into a lexicographically sorted list (Python `sorted` on
strings; all our lists have distinct elements, so stability is moot). -/
def insertSorted (x : String) : List String → List String
  | [] => [x]
  | y :: ys => if x ≤ y then x :: y :: ys else y :: insertSorted x ys

/-- Python `sorted`. -/
def sortStrings (l : List String) : List String := l.foldr insertSorted []

/-- The whitelist rendered as text: one `- table: col, col, ...` line per
table, tables and columns sorted (`schema_text` in the source). -/
def schemaText : String :=
  String.intercalate "\n"
    ((sortStrings ALLOWED_TABLES).map
      (fun table =>
        "- " ++ table ++ ": " ++
        String.intercalate ", " (sortStrings ((ALLOWED_COLUMNS table).getD []))))

/-- The repair request sent to the text-generation collaborator between
failed attempts (the `repair_prompt` f-string, after `.strip()`). -/
def repairPrompt (question sql_query last_error schema_text : String) : String :=
  "You previously wrote this PostgreSQL SELECT query for the question:\n\n" ++
  question ++
  "\n\nSQL:\n```sql\n" ++ sql_query ++
  "\n```\nIt was rejected by the SQL safety validator with this error:\n" ++
  last_error ++
  "\n\nYou MUST fix the query using ONLY the tables and columns in the schema below.\n\nALLOWED SCHEMA:\n" ++
  schema_text ++
  "\n\nRequirements:\n\nSingle SELECT statement only (no CTEs that modify data, no DDL/DML)\n\nUse only the tables and columns listed above\n\nNever invent new columns (e.g. do NOT use columns that are not in the lists)\n\nDo not use INSERT/UPDATE/DELETE/CREATE/DROP/ALTER/TRUNCATE\n\nInclude a LIMIT clause (the validator may normalize it)\n\nReturn ONLY the final PostgreSQL SELECT statement, ending with a semicolon."

/-- One record of the repair loop's attempt log. -/
structure AttemptInfo where
  attempt : Nat
  ok : Bool
  error : Option String
  original_sql : String
  cleaned_sql : Option String
  final_sql : Option String

/-- Result of the repair loop on success. -/
structure RegenResult where
  sql : String
  attempts : List AttemptInfo

/-- The body of `validate_and_maybe_regenerate_sql`'s `for` loop.  `llm`
models `GroqClient.generate_text` applied to the fixed SQL-generation system
prompt, as a function of the user (repair) prompt.  When retries are
exhausted the caught `SQLValidationError` is re-raised (`raise`), so the
attempt log is discarded and only the last rejection reason propagates.  The
`fuel = 0` case is the function's final (unreachable for
`fuel = max_retries + 1`) `raise SQLValidationError(...)` line. -/
def vamrsGo (parse : String → Except String SqlNode)
    (serialize : SqlNode → String) (llm : String → String)
    (question : String) (max_retries : Nat) :
    Nat → Nat → String → List AttemptInfo → Option String →
    Except String RegenResult
  | 0, _, _, _, last_error =>
    .error ("Failed to produce safe SQL: " ++ last_error.getD "unknown error")
  | fuel + 1, attempt, sql_query, log, _ =>
    match clean_and_validate_sql parse serialize sql_query with
    | .ok (final_sql, dbg) =>
      .ok { sql := final_sql
            attempts := log ++ [{ attempt := attempt + 1, ok := true,
                                  error := none,
                                  original_sql := dbg.original_sql,
                                  cleaned_sql := some dbg.cleaned_sql,
                                  final_sql := some dbg.final_sql }] }
    | .error e =>
      let log' := log ++ [{ attempt := attempt + 1, ok := false,
                            error := some e, original_sql := sql_query,
                            cleaned_sql := none, final_sql := none }]
      if max_retries ≤ attempt then .error e
      else
        vamrsGo parse serialize llm question max_retries fuel (attempt + 1)
          (llm (repairPrompt question sql_query e schemaText)) log' (some e)

/-- `validate_and_maybe_regenerate_sql` (`for attempt in range(max_retries+1)`). -/
def validate_and_maybe_regenerate_sql (parse : String → Except String SqlNode)
    (serialize : SqlNode → String) (llm : String → String)
    (sql_query question : String) (max_retries : Nat := 5) :
    Except String RegenResult :=
  vamrsGo parse serialize llm question max_retries (max_retries + 1) 0
    sql_query [] none

-- -----------------------------
-- query_classifier.py
-- -----------------------------

/-- `str.lower()` on `String`. -/
def lowerS (s : String) : String := String.mk (lowerL s.data)

/-- `str.strip()` shortcut reused below. -/
def pyStrip (s : String) : String := stripS s

/-- The alternatives of the hard-block `mutation_pattern` regex. -/
def MUTATION_WORDS : List String :=
  ["delete", "update", "append", "remove", "drop", "insert", "edit",
   "change", "modify"]

/-- `re.search(r"\b(delete|update|append|remove|drop|insert|edit|change|modify)\b", q)`
on the lower-cased query. -/
def mutationMatch (q_lower : String) : Bool :=
  MUTATION_WORDS.any (fun w => hasWordCI w.data q_lower.data)

/-- `property_keywords` (verbatim, duplicates included). -/
def PROPERTY_KEYWORDS : List String :=
  ["plot", "plots", "property", "properties", "pra", "road", "file no",
   "file number", "file_name", "current owner", "owner", "owners",
   "sale deed", "transaction", "transactions", "society member",
   "society membership", "share certificate", "club member",
   "club membership", "dob", "date of birth", "birthday", "birthdays",
   "born", "email", "occupation", "work", "works", "phone", "phone number",
   "phone numbers", "mobile", "mobile number", "mobile numbers", "address",
   "addresses", "pan", "aadhaar", "pan number", "aadhaar number",
   "pan card", "aadhaar card", "pan card number", "aadhaar card number",
   "pan card number", "aadhaar card number"]

/-- Python `a or b` for an optional string `a` (both `None` and `""` fall
through to `b`). -/
def orDefault (a : Option String) (b : String) : String :=
  match a with
  | some s => if s = "" then b else s
  | none => b

/-- `classify_property_query`.  The LLM collaborator's JSON answer is
abstracted as `(llmLabel, llmReason)` — it is only consulted when neither
heuristic fires. -/
def classify_property_query (llmLabel : Option String) (llmReason : String)
    (user_query : String) : String × String :=
  let q := lowerS user_query
  if mutationMatch q then
    ("irrelevant_question",
     "Query attempts to modify or edit data, which is not allowed.")
  else if PROPERTY_KEYWORDS.any (fun kw => listContains kw.data q.data) then
    ("property_talk", "Heuristic: query contains property-related keywords.")
  else
    (pyStrip (orDefault llmLabel "property_talk"), llmReason)

-- -----------------------------
-- graph.py: routing and flow nodes
-- -----------------------------

/-- The note-summary wizard state `self.note_flow`. -/
structure NoteFlow where
  active : Bool
  step : Option String
  plot : Option String
  road : Option String

/-- The inactive/reset wizard state. -/
def noteFlowReset : NoteFlow :=
  { active := false, step := none, plot := none, road := none }

/-- `_is_map_trigger`'s fallback regex
`\bmap\s+(\d{1,4})\s*[/ ]\s*(\d{1,4})\b`, matched at one position
(boundary before `map` handled by the caller).  A digit run longer than 4
can never satisfy the pattern (backtracking always leaves a digit adjacent),
so the runs must be exactly 1–4 digits long. -/
def mapPairAt (l : List Char) : Bool :=
  if ( "map".data).isPrefixOf l then
    let r1 := l.drop 3
    if r1.takeWhile pySpace = [] then false
    else
      let r2 := r1.dropWhile pySpace
      let (d1, r3) := takeDigits r2
      if d1 = [] ∨ 4 < d1.length then false
      else
        let spaces := r3.takeWhile pySpace
        let afterSp := r3.dropWhile pySpace
        let r4opt : Option (List Char) :=
          match afterSp with
          | '/' :: rest => some (rest.dropWhile pySpace)
          | _ => if spaces = [] then none else some afterSp
        match r4opt with
        | none => false
        | some r4 =>
          let (d2, r5) := takeDigits r4
          if d2 = [] ∨ 4 < d2.length then false
          else
            match r5 with
            | [] => true
            | c :: _ => !wordChar c
  else false

/-- Scan for the map-pair regex anywhere in the text, tracking the previous
character for the leading word boundary. -/
def scanMapPair : Option Char → List Char → Bool
  | _, [] => false
  | prev, c :: t =>
    ((match prev with | none => true | some p => !wordChar p) &&
     mapPairAt (c :: t)) ||
    scanMapPair (some c) t

/-- `_is_map_trigger`. -/
def is_map_trigger (text : String) : Bool :=
  if text = "" then false
  else
    let base := lowerS text
    if !listContains ( "map".data) base.data then false
    else if listContains ( "plot".data) base.data ||
            listContains ( "road".data) base.data then true
    else scanMapPair none base.data

/-- `_is_note_summary_trigger`'s cheap substring triggers. -/
def NOTE_SIMPLE_TRIGGERS : List String :=
  ["note summary", "note summar", "note summery"]

/-- `_is_note_summary_trigger`'s fuzzy candidate phrases. -/
def NOTE_CANDIDATES : List String :=
  ["note summary", "generate note summary",
   "generate property note summary", "create note summary",
   "property note summary", "note summar", "note summery",
   "generate not summary"]

/-- `_is_note_summary_trigger`.  `fuzzPartial` models
`rapidfuzz.fuzz.partial_ratio` (an external scorer). -/
def is_note_summary_trigger (fuzzPartial : String → String → Nat)
    (text : String) (threshold : Nat := 80) : Bool :=
  if text = "" then false
  else
    let base := pyStrip (lowerS text)
    if NOTE_SIMPLE_TRIGGERS.any (fun s => listContains s.data base.data) then
      true
    else
      NOTE_CANDIDATES.any (fun phrase => threshold ≤ fuzzPartial base phrase)

/-- `route_by_classification`.  `parsed` abstracts
`parse_plot_road_from_text(user_q_raw)`; `label` is
`state["classification"]["label"]` (with the `.get(..., "property_talk")`
default already applied by the caller model below).  Returns the routing
key and the (possibly mutated) wizard state. -/
def route_by_classification (note_flow : NoteFlow)
    (fuzzPartial : String → String → Nat)
    (parsed : Option String × Option String)
    (user_q_raw : String) (label : Option String) : String × NoteFlow :=
  if note_flow.active ∧ note_flow.step = some "plot" then
    ("note_plot", note_flow)
  else if note_flow.active ∧ note_flow.step = some "road" then
    ("note_road", note_flow)
  else if is_map_trigger user_q_raw then
    ("map", note_flow)
  else if is_note_summary_trigger fuzzPartial user_q_raw then
    match parsed with
    | (some p, some r) =>
      if p ≠ "" ∧ r ≠ "" then ("note_direct", noteFlowReset)
      else ("note_start",
            { active := true, step := some "plot", plot := none, road := none })
    | _ => ("note_start",
            { active := true, step := some "plot", plot := none, road := none })
  else
    let lbl := pyStrip (label.getD "property_talk")
    if lbl = "small_talk" then ("small_talk", note_flow)
    else if lbl = "irrelevant_question" then ("irrelevant", note_flow)
    else ("property_talk", note_flow)

/-- The observable per-turn output fields set by the terminal handler
nodes. -/
structure TurnOutput where
  final_answer : String
  sql_query : String
  sql_rows_empty : Bool
  geometry_none : Bool

/-- `handle_irrelevant`: the reply is generated by the text-generation
collaborator under the fixed out-of-scope system prompt (which instructs it
to return one fixed refusal line); no SQL runs. -/
def handle_irrelevant (llmOutOfScope : String → String)
    (user_query : String) : TurnOutput :=
  { final_answer := llmOutOfScope user_query
    sql_query := "-- NO SQL (irrelevant_question)"
    sql_rows_empty := true
    geometry_none := true }

-- -----------------------------
-- map.py: SQL builders
-- -----------------------------

/-- `s.replace("'", "''")`. -/
def sqlQuoteEscape (s : String) : String :=
  String.mk (s.data.flatMap (fun c => if c = '\'' then ['\'', '\''] else [c]))

/-- The PRA-lookup SQL built by `lookup_pra_for_plot_road` (note the
`p.pra_` column name, verbatim from the source). -/
def lookup_pra_sql (plot road : String) : String :=
  "SELECT p.pra_\nFROM properties p\nJOIN property_addresses pa\n  ON pa.property_id = p.id\nWHERE LOWER(TRIM(pa.plot_no)) = LOWER('" ++
  sqlQuoteEscape plot ++
  "')\n  AND LOWER(TRIM(pa.road_no)) = LOWER('" ++
  sqlQuoteEscape road ++
  "')\nLIMIT 5;"

/-- The geometry SQL built by `fetch_map_for_pra` (note the `pbchs_map`
table, verbatim from the source). -/
def fetch_map_sql (pra : String) : String :=
  "SELECT\n  id,\n  jsonb_build_object(\n    'type', 'Feature',\n    'geometry', ST_AsGeoJSON(geom)::jsonb,\n    'properties', properties\n  ) AS feature\nFROM pbchs_map\nWHERE properties->>'pra_id' = '" ++
  sqlQuoteEscape pra ++ "';"

/-- The PRA-lookup SQL built by `collect_road` / `note_summary_direct`
(this one selects `p.pra`, without the trailing underscore). -/
def note_pra_lookup_sql (plot road : String) : String :=
  "SELECT p.pra\nFROM properties p\nJOIN property_addresses pa\n  ON pa.property_id = p.id\nWHERE TRIM(pa.plot_no) = '" ++
  sqlQuoteEscape plot ++
  "'\n  AND TRIM(pa.road_no) = '" ++
  sqlQuoteEscape road ++
  "'\nLIMIT 5;"

-- -----------------------------
-- graph.py: note-summary wizard final step and single-shot variant
-- -----------------------------

/-- Python truthiness of an optional string (`None` and `""` are falsy). -/
def truthyS : Option String → Bool
  | none => false
  | some s => s ≠ ""

/-- `[row.get("pra") for row in pra_rows if row.get("pra")]` where each row
is abstracted to its `pra` value. -/
def truthyPras (pra_rows : List (Option String)) : List String :=
  pra_rows.filterMap (fun r => if truthyS r then r else none)

/-- `", ".join(pras) if pras else "N/A"`. -/
def prasListText (pra_rows : List (Option String)) : String :=
  let pras := truthyPras pra_rows
  if pras = [] then "N/A" else String.intercalate ", " pras

/-- Observable result of `collect_road` / `note_summary_direct`: the state
fields they assign, the number of `generate_property_note_pdf` calls made,
and the wizard state they leave behind. -/
structure NoteStepResult where
  final_answer : String
  sql_query : String
  sql_rows : List (Option String)
  note_pra : Option String
  note_pdf_path : Option String
  docGenCalls : Nat
  note_flow : NoteFlow

/-- `collect_road`, as a function of the wizard's stored plot, the raw and
fuzzy-matched road, and the rows returned by the guarded PRA lookup (each
row abstracted to its `pra` value).  `pdfPathOf` abstracts
`generate_property_note_pdf`'s returned path. -/
def collect_road (flow_plot : Option String) (raw_road matched_road : String)
    (pra_rows : List (Option String)) (pdfPathOf : String → String) :
    NoteStepResult :=
  let plot := pyStrip (orDefault flow_plot "")
  let road := pyStrip matched_road
  let sql := note_pra_lookup_sql plot road
  if pra_rows = [] then
    let extra := if matched_road ≠ raw_road then
        " (road interpreted as '" ++ matched_road ++ "' from DB)."
      else ""
    { final_answer :=
        "I couldn\x27t find any property for plot " ++ plot ++ " and road " ++
        road ++ "." ++ extra ++
        "\nPlease check if the numbers are correct and try again."
      sql_query := "-- NOTE_SUMMARY_FLOW: no PRA found"
      sql_rows := []
      note_pra := none
      note_pdf_path := none
      docGenCalls := 0
      note_flow := noteFlowReset }
  else if 1 < pra_rows.length then
    { final_answer :=
        "There are multiple properties for plot " ++ plot ++ " and road " ++
        road ++ ".\nMatching PRAs: " ++ prasListText pra_rows ++
        ".\nPlease specify the exact PRA you want the note summary for."
      sql_query := sql
      sql_rows := pra_rows
      note_pra := none
      note_pdf_path := none
      docGenCalls := 0
      note_flow := noteFlowReset }
  else
    let pra := pra_rows.headI
    if truthyS pra then
      let p := pra.getD ""
      { final_answer := "note summary saved;"
        sql_query := sql ++ "\n-- NOTE_SUMMARY for PRA " ++ p
        sql_rows := pra_rows
        note_pra := pra
        note_pdf_path := some (pdfPathOf p)
        docGenCalls := 1
        note_flow := noteFlowReset }
    else
      { final_answer :=
          "I found one property for plot " ++ plot ++ " and road " ++ road ++
          ", but it does not have a PRA stored. I can\x27t generate the note summary."
        sql_query := sql
        sql_rows := pra_rows
        note_pra := none
        note_pdf_path := none
        docGenCalls := 0
        note_flow := noteFlowReset }

/-- `start_note_summary`: activates the wizard at step "plot". -/
def start_note_summary (flow : NoteFlow) : String × NoteFlow :=
  ("To generate a property note summary I just need two details:\nStep 1: Please tell me the plot number.",
   { flow with active := true, step := some "plot", plot := none, road := none })

/-- `note_summary_direct`, as a function of the parse result of the
utterance, the fuzzy-matched plot/road, the guarded PRA-lookup rows and the
incoming wizard state (which this node never touches on the lookup
branches).  On a parse failure it falls back to `start_note_summary`. -/
def note_summary_direct (flow : NoteFlow)
    (parsed : Option String × Option String) (plot road : String)
    (pra_rows : List (Option String)) (pdfPathOf : String → String) :
    NoteStepResult :=
  match parsed with
  | (some p, some r) =>
    if p = "" ∨ r = "" then
      let (ans, flow') := start_note_summary flow
      { final_answer := ans, sql_query := "-- NOTE_SUMMARY_FLOW",
        sql_rows := [], note_pra := none, note_pdf_path := none,
        docGenCalls := 0, note_flow := flow' }
    else
      let sql := note_pra_lookup_sql plot road
      if pra_rows = [] then
        { final_answer :=
            "I couldn\x27t find any property for plot " ++ plot ++
            " and road " ++ road ++
            ".\nPlease check if the numbers are correct and try again."
          sql_query := "-- NOTE_SUMMARY_FLOW: no PRA found"
          sql_rows := []
          note_pra := none
          note_pdf_path := none
          docGenCalls := 0
          note_flow := flow }
      else if 1 < pra_rows.length then
        { final_answer :=
            "There are multiple properties for plot " ++ plot ++
            " and road " ++ road ++ ".\nMatching PRAs: " ++
            prasListText pra_rows ++
            ".\nPlease specify the exact PRA you want the note summary for."
          sql_query := sql
          sql_rows := pra_rows
          note_pra := none
          note_pdf_path := none
          docGenCalls := 0
          note_flow := flow }
      else
        let pra := pra_rows.headI
        if truthyS pra then
          let p0 := pra.getD ""
          { final_answer := "note summary saved;"
            sql_query := sql ++ "\n-- NOTE_SUMMARY for PRA " ++ p0
            sql_rows := pra_rows
            note_pra := pra
            note_pdf_path := some (pdfPathOf p0)
            docGenCalls := 1
            note_flow := flow }
        else
          { final_answer :=
              "I found one property for plot " ++ plot ++ " and road " ++
              road ++
              ", but it does not have a PRA stored. I can\x27t generate the note summary."
            sql_query := sql
            sql_rows := pra_rows
            note_pra := none
            note_pdf_path := none
            docGenCalls := 0
            note_flow := flow }
  | _ =>
    let (ans, flow') := start_note_summary flow
    { final_answer := ans, sql_query := "-- NOTE_SUMMARY_FLOW",
      sql_rows := [], note_pra := none, note_pdf_path := none,
      docGenCalls := 0, note_flow := flow' }

-- -----------------------------
-- graph.py: map_lookup
-- -----------------------------

/-- Observable result of `map_lookup`. -/
structure MapResult where
  final_answer : String
  sql_query : String
  sql_rows_len : Nat
  geometry : Option (List String)

/-- `map_lookup`, as a function of the parse result of the utterance, the
fuzzy-matched plot/road, and the row sets the database engine would return
for an executed statement (`praRowsOf` for the PRA lookup, abstracted to
`pra` values; `mapRowsOf` for the geometry query, each row abstracted to
`some geometryPayload` when its `feature` value is a dict containing a
`"geometry"` key, `none` otherwise).  Both lookups go through the guarded
`run_select`; a guardrail rejection raises `ValueError`, which `map_lookup`
does not catch — modelled as `.error`. -/
def map_lookup (parse : String → Except String SqlNode)
    (serialize : SqlNode → String)
    (parsed : Option String × Option String) (plot road : String)
    (praRowsOf : String → List (Option String))
    (mapRowsOf : String → List (Option String)) :
    Except String MapResult :=
  match parsed with
  | (some p, some r) =>
    if p = "" ∨ r = "" then
      .ok { final_answer :=
              "To show the property map, please tell me both the plot and road number, e.g. \x27show the map of plot 30 road 14\x27."
            sql_query := "-- MAP_LOOKUP: could not parse plot/road"
            sql_rows_len := 0
            geometry := none }
    else
      let pra_sql := lookup_pra_sql plot road
      match run_select parse serialize pra_sql false with
      | .error e => .error e
      | .ok executed =>
        let pra_rows := praRowsOf executed
        if pra_rows = [] then
          .ok { final_answer :=
                  "I couldn\x27t find any property for plot " ++ plot ++
                  " and road " ++ road ++
                  ", so I don\x27t have a map to show."
                sql_query := pra_sql
                sql_rows_len := 0
                geometry := none }
        else if 1 < pra_rows.length then
          .ok { final_answer :=
                  "There are multiple properties for plot " ++ plot ++
                  " and road " ++ road ++ ".\nMatching PRAs: " ++
                  prasListText pra_rows ++
                  ".\nPlease specify exactly which PRA you want the map for, e.g. \x27show the map for PRA 23|18|Punjabi Bagh East\x27."
                sql_query := pra_sql
                sql_rows_len := pra_rows.length
                geometry := none }
        else
          let pra := pra_rows.headI
          if truthyS pra then
            let p0 := pra.getD ""
            let map_sql := fetch_map_sql p0
            match run_select parse serialize map_sql false with
            | .error e => .error e
            | .ok executed2 =>
              let map_rows := mapRowsOf executed2
              if map_rows = [] then
                .ok { final_answer :=
                        "I found property " ++ p0 ++ " for plot " ++ plot ++
                        " and road " ++ road ++
                        ", but there is currently no map geometry stored for it."
                      sql_query := map_sql
                      sql_rows_len := 0
                      geometry := none }
              else
                .ok { final_answer :=
                        "Map geometry is available for property " ++ p0 ++
                        " (plot " ++ plot ++ ", road " ++ road ++
                        "). I\x27ve returned the GeoJSON feature(s) that your frontend can render."
                      sql_query := map_sql
                      sql_rows_len := map_rows.length
                      geometry := some (map_rows.filterMap id) }
          else
            .ok { final_answer :=
                    "I found one property for plot " ++ plot ++
                    " and road " ++ road ++
                    ", but it does not have a PRA stored, so I can\x27t fetch a map."
                  sql_query := pra_sql
                  sql_rows_len := pra_rows.length
                  geometry := none }
  | _ =>
    .ok { final_answer :=
            "To show the property map, please tell me both the plot and road number, e.g. \x27show the map of plot 30 road 14\x27."
          sql_query := "-- MAP_LOOKUP: could not parse plot/road"
          sql_rows_len := 0
          geometry := none }

-- -----------------------------
-- memory.py: ConversationMemory
-- -----------------------------

/-- The `focus_property` dict: `{pra, file_name}`, either possibly `None`. -/
structure FocusProp where
  pra : Option String
  file_name : Option String

/-- The NER entity bundle fields consulted by `update_from_entities`
(each `Option String`: `none` models a missing key or `None` value). -/
structure Entities where
  pra : Option String := none
  file_no : Option String := none
  file_name : Option String := none
  plot_no : Option String := none
  road_no : Option String := none
  area : Option String := none
  person_name : Option String := none
  owner_name : Option String := none
  name : Option String := none

/-- One SQL result row as seen by `update_from_sql_rows`: for each consulted
key, `none` = key absent, `some v` = key present with value `v` (where the
inner `none` models SQL `NULL`; for `name`, a present non-string value also
behaves like the inner `none` because of the `isinstance(..., str)` check,
which we conservatively model by using `some (some s)` only for strings). -/
structure SqlRow where
  pra : Option (Option String) := none
  file_name : Option (Option String) := none
  name : Option (Option String) := none

/-- `ConversationMemory`'s mutable fields. -/
structure Mem where
  focus_property : Option FocusProp := none
  focus_person : Option String := none
  last_sql_rows : List SqlRow := []

/-- First person-like value: the loop over `person_name`, `owner_name`,
`name` that takes the first non-empty string (stripped) and breaks. -/
def firstPersonVal : List (Option String) → Option String
  | [] => none
  | v :: rest =>
    match v with
    | some s => if pyStrip s ≠ "" then some (pyStrip s) else firstPersonVal rest
    | none => firstPersonVal rest

/-- `ConversationMemory.update_from_entities`. -/
def update_from_entities (m : Mem) (entities : Option Entities) : Mem :=
  let ent := entities.getD {}
  let anyProp := truthyS ent.pra || truthyS ent.file_no ||
                 truthyS ent.file_name || truthyS ent.plot_no ||
                 truthyS ent.road_no || truthyS ent.area
  let m1 :=
    if anyProp then
      { m with focus_property := some ⟨
          (if truthyS ent.pra then ent.pra
           else m.focus_property.bind FocusProp.pra),
          (if truthyS ent.file_name then ent.file_name
           else m.focus_property.bind FocusProp.file_name)⟩ }
    else m
  match firstPersonVal [ent.person_name, ent.owner_name, ent.name] with
  | some p => { m1 with focus_person := some p }
  | none => m1

/-- `ConversationMemory.update_from_sql_rows`. -/
def update_from_sql_rows (m : Mem) (rows : List SqlRow) : Mem :=
  let m0 := { m with last_sql_rows := rows }
  match rows with
  | [] => m0
  | row :: _ =>
    let m1 :=
      if row.pra.isSome || row.file_name.isSome then
        { m0 with focus_property := some ⟨row.pra.join, row.file_name.join⟩ }
      else m0
    match row.name with
    | some (some s) => { m1 with focus_person := some (pyStrip s) }
    | _ => m1

-- -----------------------------
-- Claim-side specification: whitelist conformance (C1)
-- -----------------------------

/-- Claim-side predicate, phrased from the specification's wording: every
referenced table is whitelisted. -/
def TablesConformant (a : SqlAst) : Prop :=
  ∀ t ∈ a.tables, t.1 ∈ ALLOWED_TABLES

/-- Claim-side predicate, phrased from the specification's wording: an
unqualified column is acceptable when it matches a SELECT-list expression
alias or appears in some whitelisted table's allowed-column set; an
`alias.column` qualifier is resolved through the per-statement alias map
(alias uniqueness as the resolution key) and the column must then belong to
the resolved table's allowed-column set; an unresolved qualifier is
acceptable only when it is a derived-table/subquery alias. -/
def ColumnConformant (a : SqlAst) (c : Option String × String) : Prop :=
  match qualifierOf c.1 with
  | none =>
      c.2 ∈ a.selectAliases ∨
      ∃ t ∈ ALLOWED_TABLES, c.2 ∈ (ALLOWED_COLUMNS t).getD []
  | some q =>
      match (buildAliasMap a.tables).lookup q with
      | some real => c.2 ∈ (ALLOWED_COLUMNS real).getD []
      | none => q ∈ a.subqueryAliases

/-- Claim-side predicate: the statement references only whitelisted tables
and columns (in the claim's sense of reference resolution). -/
def WhitelistConformant (a : SqlAst) : Prop :=
  TablesConformant a ∧ ∀ c ∈ a.columns, ColumnConformant a c

-- -----------------------------
-- Repair-loop candidate sequence (C7)
-- -----------------------------

/-- The sequence of candidate SQL strings the repair loop works through:
the initial candidate, then — after each rejection — the collaborator's
answer to the repair prompt built from the previous candidate and its exact
rejection reason. -/
def nthCandidate (parse : String → Except String SqlNode)
    (serialize : SqlNode → String) (llm : String → String)
    (question sql : String) : Nat → String
  | 0 => sql
  | i + 1 =>
    let c := nthCandidate parse serialize llm question sql i
    match clean_and_validate_sql parse serialize c with
    | .error e => llm (repairPrompt question c e schemaText)
    | .ok _ => c

-- -----------------------------
-- Concrete parse/serialize tables used in closed theorems and witnesses
-- -----------------------------

/-- The sqlglot tree of `lookup_pra_sql "30" "14"` (map.py's PRA lookup):
its table references, column references and functions as `find_all` sees
them. -/
def astMapLookup : SqlNode :=
  .selectQ [ .col (some "p") "pra_" ]
    [ .tbl "properties" (some "p"), .tbl "property_addresses" (some "pa"),
      .col (some "pa") "property_id", .col (some "p") "id" ]
    [ .func "LOWER" [ .func "TRIM" [ .col (some "pa") "plot_no" ] ],
      .func "LOWER" [ .lit "30" ],
      .func "LOWER" [ .func "TRIM" [ .col (some "pa") "road_no" ] ],
      .func "LOWER" [ .lit "14" ] ]
    (some 5)

/-- The sqlglot tree of `fetch_map_sql "23|18|Punjabi Bagh East"` (map.py's
geometry query): it references the `pbchs_map` table. -/
def astMapFetch : SqlNode :=
  .selectQ
    [ .col none "id",
      .aliasE (.func "jsonb_build_object"
        [ .lit "type", .lit "Feature",
          .lit "geometry", .func "ST_AsGeoJSON" [ .col none "geom" ],
          .lit "properties", .col none "properties" ]) "feature" ]
    [ .tbl "pbchs_map" none ]
    [ .col none "properties", .lit "pra_id", .lit "23|18|Punjabi Bagh East" ]
    none

/-- A parse table for the two map.py statements. -/
def parseC3 (s : String) : Except String SqlNode :=
  if s = lookup_pra_sql "30" "14" then .ok astMapLookup
  else if s = fetch_map_sql "23|18|Punjabi Bagh East" then .ok astMapFetch
  else .error "unexpected statement"

def serializeC3 (_ : SqlNode) : String := ""

/-- A no-LIMIT statement whose only aggregate sits in the HAVING clause,
not in the select list. -/
def sqlHaving : String :=
  "SELECT plot_no FROM property_addresses GROUP BY plot_no HAVING COUNT(id) > 1"

/-- The tree of `sqlHaving`: select list `[plot_no]`, aggregate `COUNT(id)`
only under GROUP BY/HAVING. -/
def astHaving : SqlNode :=
  .selectQ [ .col none "plot_no" ] [ .tbl "property_addresses" none ]
    [ .col none "plot_no", .agg "COUNT" [ .col none "id" ] ] none

def parseHaving (s : String) : Except String SqlNode :=
  if s = sqlHaving then .ok astHaving else .error "unexpected statement"

def serializeHaving (_ : SqlNode) : String := sqlHaving

/-- Demo statements with a canonical parse/serialize pair (used by
witnesses): a plain lookup, the same with an explicit LIMIT, an aggregate
query, and the plain lookup with the appended default LIMIT. -/
def sqlPlain : String := "SELECT id FROM properties"

def astPlain : SqlNode :=
  .selectQ [ .col none "id" ] [ .tbl "properties" none ] [] none

def sqlLimited : String := "SELECT id FROM properties LIMIT 7"

def astLimited : SqlNode :=
  .selectQ [ .col none "id" ] [ .tbl "properties" none ] [] (some 7)

def sqlAgg : String := "SELECT COUNT(id) FROM properties"

def astAgg : SqlNode :=
  .selectQ [ .agg "COUNT" [ .col none "id" ] ] [ .tbl "properties" none ] []
    none

def sqlPlain100 : String := "SELECT id FROM properties LIMIT 100"

def astPlain100 : SqlNode :=
  .selectQ [ .col none "id" ] [ .tbl "properties" none ] [] (some 100)

/-- Canonical-parser model on the four demo statements (tolerating one
trailing semicolon, as sqlglot does). -/
def parseDemo (s : String) : Except String SqlNode :=
  let s' := if s.data.getLast? = some ';' then String.mk s.data.dropLast else s
  if s' = sqlPlain then .ok astPlain
  else if s' = sqlLimited then .ok astLimited
  else if s' = sqlAgg then .ok astAgg
  else if s' = sqlPlain100 then .ok astPlain100
  else .error "unexpected statement"

/-- Canonical-serializer model on the four demo trees. -/
def serializeDemo (n : SqlNode) : String :=
  match n with
  | .selectQ _ _ _ (some 100) => sqlPlain100
  | .selectQ _ _ _ (some _) => sqlLimited
  | .selectQ (.agg _ _ :: _) _ _ none => sqlAgg
  | _ => sqlPlain

-- =============================
-- Theorems
-- =============================

theorem checkTablesL_eq_ok_iff (l : List String) :
    checkTablesL l = .ok () ↔ ∀ n ∈ l, n ∈ ALLOWED_TABLES := by
  induction l with
  | nil => simp [checkTablesL]
  | cons n rest ih =>
    by_cases h : ALLOWED_TABLES.contains n = true
    · have hn : n ∈ ALLOWED_TABLES := List.elem_iff.mp h
      simp [checkTablesL, h, ih, hn]
    · have hn : n ∉ ALLOWED_TABLES := fun hm => h (List.elem_iff.mpr hm)
      simp [checkTablesL, h, hn]

theorem bareColumnAllowed_iff (n : String) :
    bareColumnAllowed n = true ↔
      ∃ t ∈ ALLOWED_TABLES, n ∈ (ALLOWED_COLUMNS t).getD [] := by
  simp [bareColumnAllowed, List.any_eq_true, List.elem_iff]

theorem lookup_pair_mem {l : List (String × String)} {k v : String}
    (h : l.lookup k = some v) : (k, v) ∈ l := by
  induction l with
  | nil => simp [List.lookup] at h
  | cons p t ih =>
    rw [List.lookup] at h
    by_cases hk : k == p.1
    · obtain ⟨a, b⟩ := p
      simp only at hk
      rw [hk] at h
      simp only [cond_true] at h
      cases h
      have : k = a := by simpa using hk
      subst this
      exact List.mem_cons_self _ _
    · obtain ⟨a, b⟩ := p
      simp only at hk
      rw [Bool.eq_false_iff.mpr hk] at h
      simp only [cond_false] at h
      exact List.mem_cons_of_mem _ (ih h)

theorem buildAliasMap_mem {ts : List (String × Option String)}
    {p : String × String} (h : p ∈ buildAliasMap ts) :
    p.2 ∈ ts.map Prod.fst := by
  suffices H : ∀ (ts : List (String × Option String))
      (acc : List (String × String)) (p : String × String),
      p ∈ ts.foldl
        (fun m t =>
          let m1 := (t.1, t.1) :: m
          match t.2 with
          | some a => if a = "" then m1 else (a, t.1) :: m1
          | none => m1) acc →
      p ∈ acc ∨ p.2 ∈ ts.map Prod.fst by
    have := H ts [] p h
    simpa using this
  intro ts
  induction ts with
  | nil => intro acc p h; simp at h; exact Or.inl h
  | cons t rest ih =>
    intro acc p h
    simp only [List.foldl_cons] at h
    rcases ih _ p h with hacc | hrest
    · cases ht : t.2 with
      | none =>
        simp only [ht] at hacc
        rcases List.mem_cons.mp hacc with he | hm
        · exact Or.inr (by simp [he])
        · exact Or.inl hm
      | some a =>
        simp only [ht] at hacc
        by_cases ha : a = ""
        · simp only [ha, if_pos rfl] at hacc
          rcases List.mem_cons.mp hacc with he | hm
          · exact Or.inr (by simp [he])
          · exact Or.inl hm
        · simp only [if_neg ha] at hacc
          rcases List.mem_cons.mp hacc with he | hm
          · exact Or.inr (by simp [he])
          · rcases List.mem_cons.mp hm with he2 | hm2
            · exact Or.inr (by simp [he2])
            · exact Or.inl hm2
    · exact Or.inr (by simp [hrest])

theorem ALLOWED_COLUMNS_isSome_of_mem {t : String} (h : t ∈ ALLOWED_TABLES) :
    (ALLOWED_COLUMNS t).isSome := by
  fin_cases h <;> rfl

theorem empty_not_allowed_table : "" ∉ ALLOWED_TABLES := by decide

theorem checkColumn_eq_ok_iff {a : SqlAst} (hT : TablesConformant a)
    (c : Option String × String) :
    checkColumn (buildAliasMap a.tables) a.selectAliases a.subqueryAliases c
      = .ok () ↔ ColumnConformant a c := by
  have hval : ∀ {q real : String},
      (buildAliasMap a.tables).lookup q = some real →
      real ∈ ALLOWED_TABLES := by
    intro q real hlk
    have hmem := buildAliasMap_mem (lookup_pair_mem hlk)
    rcases List.mem_map.mp hmem with ⟨t, ht, hteq⟩
    have h2 := hT t ht
    rw [hteq] at h2
    exact h2
  unfold checkColumn ColumnConformant
  cases hq : qualifierOf c.1 with
  | none =>
    by_cases hsel : a.selectAliases.contains c.2 = true
    · have : c.2 ∈ a.selectAliases := List.elem_iff.mp hsel
      simp [hsel, this]
    · have hnot : c.2 ∉ a.selectAliases := fun hm => hsel (List.elem_iff.mpr hm)
      by_cases hbare : bareColumnAllowed c.2 = true
      · simp [hsel, hbare, hnot, (bareColumnAllowed_iff c.2).mp hbare]
      · simp only [hsel, Bool.false_eq_true, if_false, hbare]
        constructor
        · intro h; cases h
        · intro h
          rcases h with h | h
          · exact absurd h hnot
          · exact absurd ((bareColumnAllowed_iff c.2).mpr h) hbare
  | some q =>
    cases hlk : (buildAliasMap a.tables).lookup q with
    | none =>
      by_cases hsub : a.subqueryAliases.contains q = true
      · simp [hlk, hsub, List.elem_iff.mp hsub]
      · have : q ∉ a.subqueryAliases := fun hm => hsub (List.elem_iff.mpr hm)
        simp only [hlk, hsub, Bool.false_eq_true, if_false]
        constructor
        · intro h; cases h
        · intro h; exact absurd h this
    | some real =>
      have hreal : real ∈ ALLOWED_TABLES := hval hlk
      have hne : real ≠ "" := fun he => empty_not_allowed_table (he ▸ hreal)
      have hsome := ALLOWED_COLUMNS_isSome_of_mem hreal
      obtain ⟨cols, hcols⟩ := Option.isSome_iff_exists.mp hsome
      by_cases hc : cols.contains c.2 = true
      · simp [hlk, hne, hcols, hc, List.elem_iff.mp hc]
      · have : c.2 ∉ cols := fun hm => hc (List.elem_iff.mpr hm)
        simp only [hlk, if_neg hne, hcols, hc, Bool.false_eq_true, if_false]
        constructor
        · intro h; cases h
        · intro h
          simp only [Option.getD_some] at h
          exact absurd h this

theorem checkColumnsL_eq_ok_iff (m : List (String × String))
    (sA uA : List String) (cs : List (Option String × String)) :
    checkColumnsL m sA uA cs = .ok () ↔
      ∀ c ∈ cs, checkColumn m sA uA c = .ok () := by
  induction cs with
  | nil => simp [checkColumnsL]
  | cons c rest ih =>
    cases hc : checkColumn m sA uA c with
    | ok u =>
      cases u
      simp [checkColumnsL, hc, ih]
    | error e =>
      simp only [checkColumnsL, hc]
      constructor
      · intro h; cases h
      · intro h
        have := h c (List.mem_cons_self _ _)
        rw [hc] at this
        cases this

/-- C1: the guardrail's table/column whitelist check accepts a statement if
and only if the statement references only whitelisted tables and columns in
the claim's sense: all real table names whitelisted; `alias.column`
qualifiers resolved through the per-statement alias map (alias uniqueness,
not table-name uniqueness, is the key — self-joins map each alias to its
table); an unqualified column accepted only as a SELECT-list expression
alias or as a member of some whitelisted table's allowed-column set; a
qualifier that is a derived-table/subquery alias accepted without further
check; any other unknown qualifier rejected.  Rejection in all other cases
and success in all conforming cases are the two directions of the
equivalence. -/
theorem c1_guard_whitelist_iff (a : SqlAst) :
    guard_tables_and_columns a = .ok () ↔ WhitelistConformant a := by
  unfold guard_tables_and_columns WhitelistConformant
  cases ht : checkTablesL (a.tables.map Prod.fst) with
  | error e =>
    simp only
    constructor
    · intro h; cases h
    · rintro ⟨hT, -⟩
      have : checkTablesL (a.tables.map Prod.fst) = .ok () := by
        rw [checkTablesL_eq_ok_iff]
        intro n hn
        rcases List.mem_map.mp hn with ⟨t, htm, hteq⟩
        exact hteq ▸ hT t htm
      rw [ht] at this
      cases this
  | ok u =>
    cases u
    have hT : TablesConformant a := by
      intro t htm
      have := (checkTablesL_eq_ok_iff _).mp ht
      exact this t.1 (List.mem_map.mpr ⟨t, htm, rfl⟩)
    simp only
    rw [checkColumnsL_eq_ok_iff]
    constructor
    · intro h
      exact ⟨hT, fun c hc => (checkColumn_eq_ok_iff hT c).mp (h c hc)⟩
    · rintro ⟨-, hC⟩
      exact fun c hc => (checkColumn_eq_ok_iff hT c).mpr (hC c hc)

-- -----------------------------
-- C2: keyword guard
-- -----------------------------

theorem checkDangerousL_error_of_mem {kws : List String} {upper : List Char}
    (h : ∃ kw ∈ kws, listContains kw.data upper = true) :
    ∃ e, checkDangerousL kws upper = .error e := by
  induction kws with
  | nil => simp at h
  | cons kw0 rest ih =>
    by_cases h0 : listContains kw0.data upper = true
    · exact ⟨ "Disallowed keyword '" ++ kw0 ++ "' found in SQL.",
        by simp [checkDangerousL, h0]⟩
    · obtain ⟨kw, hkw, hc⟩ := h
      rcases List.mem_cons.mp hkw with he | hm
      · exact absurd (he ▸ hc) h0
      · obtain ⟨e, he⟩ := ih ⟨kw, hm, hc⟩
        exact ⟨e, by simp [checkDangerousL, h0, he]⟩

theorem cheap_keyword_guard_error {cleaned : String}
    (h : ( "SELECT".data).isPrefixOf (lstripL (upperL cleaned.data)) = false ∨
         ∃ kw ∈ DANGEROUS_KEYWORDS,
           listContains kw.data (upperL cleaned.data) = true) :
    ∃ e, cheap_keyword_guard cleaned = .error e := by
  unfold cheap_keyword_guard
  by_cases hsel :
      ( "SELECT".data).isPrefixOf (lstripL (upperL cleaned.data)) = true
  · rcases h with hf | hkw
    · rw [hsel] at hf; cases hf
    · obtain ⟨e, he⟩ := checkDangerousL_error_of_mem hkw
      exact ⟨e, by simp [hsel, he]⟩
  · have hf : ( "SELECT".data).isPrefixOf (lstripL (upperL cleaned.data)) = false := by
      cases hc : ( "SELECT".data).isPrefixOf (lstripL (upperL cleaned.data)) with
      | true => exact absurd hc hsel
      | false => rfl
    exact ⟨"Only SELECT queries are allowed.", by simp [hf]⟩

/-- C2: for every SQL string whose statement text — after the fence
normalization the validator itself performs — does not begin with `SELECT`
(ignoring case and leading whitespace: the claim's "first keyword is not
SELECT"), and for every SQL string whose normalized statement text contains
any of the dangerous keywords INSERT, UPDATE, DELETE, DROP, TRUNCATE,
ALTER, CREATE anywhere (case-insensitively, even inside a read-only-looking
clause), the full validation pipeline rejects with a validation error; so
no such statement is ever handed to the database. -/
theorem c2_validate_rejects_non_select_and_dangerous
    (parse : String → Except String SqlNode) (serialize : SqlNode → String)
    (sql cleaned : String)
    (hclean : clean_sql_one_statement sql = .ok cleaned)
    (h : ( "SELECT".data).isPrefixOf (lstripL (upperL cleaned.data)) = false ∨
         ∃ kw ∈ DANGEROUS_KEYWORDS,
           listContains kw.data (upperL cleaned.data) = true) :
    ∃ e, clean_and_validate_sql parse serialize sql = .error e := by
  obtain ⟨e, he⟩ := cheap_keyword_guard_error h
  exact ⟨e, by simp [clean_and_validate_sql, hclean, he]⟩

/-- Witness for C2 at the concrete input `"DROP TABLE properties"`. -/
theorem c2_witness :
    ∃ e, clean_and_validate_sql (fun _ => .error "") (fun _ => "")
      "DROP TABLE properties" = .error e :=
  c2_validate_rejects_non_select_and_dangerous (fun _ => .error "")
    (fun _ => "") "DROP TABLE properties" "DROP TABLE properties;"
    (by rfl)
    (Or.inr ⟨ "DROP", by decide, by decide⟩)

-- -----------------------------
-- C5: LIMIT enforcement
-- -----------------------------

/-- C5 (amended): for a statement that reaches the limit stage — if the
statement already contains the word LIMIT, the stage only re-serializes it
(the existing clause is kept); if it contains no LIMIT and no aggregate
function anywhere in the parsed statement (`find_all` over the whole select
subtree, HAVING and subqueries included — not merely the select list), the
output is the normalized statement with a single " LIMIT 100" appended; if
it contains an aggregate anywhere and no LIMIT, no LIMIT is added. -/
theorem c5_enforce_limit_amended (parse : String → Except String SqlNode)
    (serialize : SqlNode → String) (sql : String) (ast : SqlNode)
    (hp : parse (String.mk (enforceRaw sql)) = .ok ast) :
    (hasWordCI ( "limit".data) (enforceRaw sql) = true →
        enforce_limit parse serialize sql = .ok (stripS (serialize ast) ++ ";")) ∧
    (hasWordCI ( "limit".data) (enforceRaw sql) = false →
        ∀ sel, mainSelect ast = some sel →
          (hasAggNode sel = false →
              enforce_limit parse serialize sql
                = .ok (stripS (serialize ast) ++ " LIMIT " ++ toString 100 ++ ";")) ∧
          (hasAggNode sel = true →
              enforce_limit parse serialize sql
                = .ok (stripS (serialize ast) ++ ";"))) := by
  constructor
  · intro hw
    simp [enforce_limit, hw, hp]
  · intro hw sel hsel
    constructor
    · intro hagg
      simp [enforce_limit, hw, hp, hsel, hagg]
    · intro hagg
      simp [enforce_limit, hw, hp, hsel, hagg]

/-- Witness for C5's amended statement at the three demo inputs. -/
theorem c5_witness :
    enforce_limit parseDemo serializeDemo sqlLimited
      = .ok (stripS (serializeDemo astLimited) ++ ";") ∧
    enforce_limit parseDemo serializeDemo sqlPlain
      = .ok (stripS (serializeDemo astPlain) ++ " LIMIT " ++ toString 100 ++ ";") ∧
    enforce_limit parseDemo serializeDemo sqlAgg
      = .ok (stripS (serializeDemo astAgg) ++ ";") :=
  ⟨(c5_enforce_limit_amended parseDemo serializeDemo sqlLimited astLimited
      (by rfl)).1 (by decide),
   ((c5_enforce_limit_amended parseDemo serializeDemo sqlPlain astPlain
      (by rfl)).2 (by decide) astPlain (by rfl)).1 (by rfl),
   ((c5_enforce_limit_amended parseDemo serializeDemo sqlAgg astAgg
      (by rfl)).2 (by decide) astAgg (by rfl)).2 (by rfl)⟩

set_option maxRecDepth 8000 in
/-- C5 counterexample to the claim as stated: `sqlHaving` has no LIMIT and
no top-level aggregate in its select list (the only COUNT sits in the
HAVING clause), yet the limit stage adds no LIMIT clause at all — the
claim's "exactly one LIMIT clause with the default value" fails on it. -/
theorem c5_counterexample :
    hasWordCI ( "limit".data) sqlHaving.data = false ∧
    hasAggInSelectList astHaving = false ∧
    parseHaving sqlHaving = .ok astHaving ∧
    enforce_limit parseHaving serializeHaving sqlHaving
      = .ok (sqlHaving ++ ";") ∧
    hasWordCI ( "limit".data) (sqlHaving ++ ";").data = false :=
  ⟨by decide, by rfl, by rfl, by rfl, by decide⟩

-- -----------------------------
-- C6: run_select
-- -----------------------------

/-- C6: `run_select` passes every query through the shared guardrail before
execution — a rejection is re-raised (as `ValueError`), so no unvalidated
SQL ever reaches the database — and then executes exactly the validated SQL
with its trailing LIMIT clause removed when `preserve_limit` is false (the
default) and unchanged when `preserve_limit` is true. -/
theorem c6_run_select_guarded (parse : String → Except String SqlNode)
    (serialize : SqlNode → String) (query : String) :
    (∀ e, clean_and_validate_sql parse serialize query = .error e →
        ∀ p, run_select parse serialize query p =
          .error ("Invalid SQL blocked by guardrails: " ++ e)) ∧
    (∀ safe dbg,
        clean_and_validate_sql parse serialize query = .ok (safe, dbg) →
        run_select parse serialize query true = .ok safe ∧
        run_select parse serialize query false
          = .ok (remove_limit_clause safe)) := by
  constructor
  · intro e he p
    simp [run_select, he]
  · intro safe dbg h
    constructor <;> simp [run_select, h]

set_option maxRecDepth 8000 in
/-- Witness for C6 at concrete inputs: the validated demo query executes
with its appended LIMIT stripped again (default) or kept
(`preserve_limit`), and a mutating statement is blocked. -/
theorem c6_witness :
    run_select parseDemo serializeDemo sqlPlain false
      = .ok "SELECT id FROM properties;" ∧
    run_select parseDemo serializeDemo sqlPlain true
      = .ok "SELECT id FROM properties LIMIT 100;" ∧
    ∃ e, run_select parseDemo serializeDemo "DROP TABLE properties" false
      = .error e := by
  refine ⟨by rfl, by rfl, ?_⟩
  exact ⟨ "Invalid SQL blocked by guardrails: Only SELECT queries are allowed.",
    (c6_run_select_guarded parseDemo serializeDemo
      "DROP TABLE properties").1 "Only SELECT queries are allowed." (by rfl) false⟩

-- -----------------------------
-- C7: repair loop
-- -----------------------------

theorem vamrsGo_ok_spec (parse : String → Except String SqlNode)
    (serialize : SqlNode → String) (llm : String → String) (q : String)
    (n : Nat) :
    ∀ (fuel attempt : Nat) (sql : String) (log : List AttemptInfo)
      (le : Option String) (res : RegenResult),
      vamrsGo parse serialize llm q n fuel attempt sql log le = .ok res →
      (∀ r ∈ log, r.ok = false) →
      log.map AttemptInfo.attempt = List.range' 1 log.length →
      attempt = log.length →
      res.attempts.length ≤ log.length + fuel ∧
      res.attempts.map AttemptInfo.attempt = List.range' 1 res.attempts.length ∧
      ∃ pre last, res.attempts = pre ++ [last] ∧ last.ok = true ∧
        ∀ r ∈ pre, r.ok = false := by
  intro fuel
  induction fuel with
  | zero =>
    intro attempt sql log le res h
    simp [vamrsGo] at h
  | succ fuel ih =>
    intro attempt sql log le res h hlog hnum hatt
    rw [vamrsGo] at h
    cases hcvs : clean_and_validate_sql parse serialize sql with
    | ok fd =>
      obtain ⟨f, d⟩ := fd
      rw [hcvs] at h
      simp only [Except.ok.injEq] at h
      subst h
      refine ⟨by simp, ?_, log, _, rfl, rfl, hlog⟩
      simp only [List.map_append, hnum, List.map_cons, List.map_nil,
        List.length_append, List.length_cons, List.length_nil]
      rw [hatt]
      simp [List.range'_concat]
      omega
    | error e =>
      rw [hcvs] at h
      by_cases hle : n ≤ attempt
      · simp [hle] at h
      · simp only [hle, if_false] at h
        have hlog' : ∀ r ∈ log ++ [AttemptInfo.mk (attempt + 1) false
            (some e) sql none none], r.ok = false := by
          intro r hr
          rcases List.mem_append.mp hr with hm | hm
          · exact hlog r hm
          · simp at hm; subst hm; rfl
        have hnum' : (log ++ [AttemptInfo.mk (attempt + 1) false
              (some e) sql none none]).map AttemptInfo.attempt
            = List.range' 1 (log ++ [AttemptInfo.mk (attempt + 1) false
              (some e) sql none none]).length := by
          simp only [List.map_append, hnum, List.map_cons, List.map_nil,
            List.length_append, List.length_cons, List.length_nil]
          rw [hatt]
          simp [List.range'_concat]
          omega
        have hstep := ih (attempt + 1) _ _ _ res h hlog' hnum' (by simp [hatt])
        have hb := hstep.1
        simp only [List.length_append, List.length_cons, List.length_nil] at hb
        exact ⟨by omega, hstep.2.1, hstep.2.2⟩

theorem vamrsGo_error_spec (parse : String → Except String SqlNode)
    (serialize : SqlNode → String) (llm : String → String) (q : String)
    (n : Nat) (sql0 : String) :
    ∀ (fuel attempt : Nat) (log : List AttemptInfo) (le : Option String)
      (e : String),
      attempt + fuel = n + 1 →
      attempt ≤ n →
      vamrsGo parse serialize llm q n fuel attempt
        (nthCandidate parse serialize llm q sql0 attempt) log le = .error e →
      (∀ j, attempt ≤ j → j ≤ n →
        ∃ ej, clean_and_validate_sql parse serialize
          (nthCandidate parse serialize llm q sql0 j) = .error ej) ∧
      clean_and_validate_sql parse serialize
        (nthCandidate parse serialize llm q sql0 n) = .error e := by
  intro fuel
  induction fuel with
  | zero =>
    intro attempt log le e hsum hle h
    omega
  | succ fuel ih =>
    intro attempt log le e hsum hle h
    rw [vamrsGo] at h
    cases hcvs : clean_and_validate_sql parse serialize
        (nthCandidate parse serialize llm q sql0 attempt) with
    | ok fd =>
      rw [hcvs] at h
      obtain ⟨f, d⟩ := fd
      simp at h
    | error eatt =>
      rw [hcvs] at h
      by_cases hcond : n ≤ attempt
      · have heq : attempt = n := Nat.le_antisymm hle hcond
        simp only [hcond, if_true] at h
        rw [Except.error.injEq] at h
        subst h
        subst heq
        refine ⟨?_, hcvs⟩
        intro j hj1 hj2
        have : j = attempt := Nat.le_antisymm hj2 hj1
        subst this
        exact ⟨eatt, hcvs⟩
      · simp only [hcond, if_false] at h
        have hnext : llm (repairPrompt q
            (nthCandidate parse serialize llm q sql0 attempt) eatt schemaText)
            = nthCandidate parse serialize llm q sql0 (attempt + 1) := by
          conv_rhs => rw [nthCandidate]
          simp only [hcvs]
        rw [hnext] at h
        have hrec := ih (attempt + 1) _ _ e (by omega) (by omega) h
        refine ⟨?_, hrec.2⟩
        intro j hj1 hj2
        rcases Nat.eq_or_lt_of_le hj1 with heq | hlt
        · subst heq
          exact ⟨eatt, hcvs⟩
        · exact hrec.1 j (by omega) hj2

/-- C7: for every `max_retries ≥ 0` the repair loop terminates after at
most `max_retries + 1` validation attempts; it returns immediately on the
first successful validation, with the ordered attempt log holding one
record per attempt made (numbered 1, 2, …, all but the last failed, the
last succeeded); a first-attempt success yields exactly one (successful)
record; when every attempt fails, the error propagated is the exact
rejection reason of the last candidate, after all `max_retries + 1`
candidates failed validation; and every repair request sent to the
text-generation collaborator between failed attempts contains the original
question, the previous SQL, the exact rejection reason, and the full
whitelist rendered as text. -/
theorem c7_repair_loop (parse : String → Except String SqlNode)
    (serialize : SqlNode → String) (llm : String → String)
    (sql q : String) (n : Nat) :
    (∀ res, validate_and_maybe_regenerate_sql parse serialize llm sql q n
        = .ok res →
      res.attempts.length ≤ n + 1 ∧
      res.attempts.map AttemptInfo.attempt
        = List.range' 1 res.attempts.length ∧
      ∃ pre last, res.attempts = pre ++ [last] ∧ last.ok = true ∧
        ∀ r ∈ pre, r.ok = false) ∧
    (∀ f d, clean_and_validate_sql parse serialize sql = .ok (f, d) →
      validate_and_maybe_regenerate_sql parse serialize llm sql q n
        = .ok { sql := f,
                attempts := [{ attempt := 1, ok := true, error := none,
                               original_sql := d.original_sql,
                               cleaned_sql := some d.cleaned_sql,
                               final_sql := some d.final_sql }] }) ∧
    (∀ e, validate_and_maybe_regenerate_sql parse serialize llm sql q n
        = .error e →
      (∀ i ≤ n, ∃ ei, clean_and_validate_sql parse serialize
          (nthCandidate parse serialize llm q sql i) = .error ei) ∧
      clean_and_validate_sql parse serialize
        (nthCandidate parse serialize llm q sql n) = .error e) ∧
    (∀ q2 s2 e2, ∃ p1 p2 p3 p4 p5 : String,
      repairPrompt q2 s2 e2 schemaText
        = p1 ++ q2 ++ p2 ++ s2 ++ p3 ++ e2 ++ p4 ++ schemaText ++ p5) := by
  refine ⟨?_, ?_, ?_, ?_⟩
  · intro res h
    have := vamrsGo_ok_spec parse serialize llm q n (n + 1) 0 sql [] none res
      h (by simp) (by simp) (by simp)
    simpa using this
  · intro f d h
    unfold validate_and_maybe_regenerate_sql
    rw [vamrsGo, h]
    rfl
  · intro e h
    have h0 : nthCandidate parse serialize llm q sql 0 = sql := rfl
    have hsp := vamrsGo_error_spec parse serialize llm q n sql (n + 1) 0 [] none e
      (by omega) (by omega) (by rw [h0]; exact h)
    exact ⟨fun i hi => hsp.1 i (Nat.zero_le i) hi, hsp.2⟩
  · intro q2 s2 e2
    exact ⟨ "You previously wrote this PostgreSQL SELECT query for the question:\n\n",
      "\n\nSQL:\n```sql\n",
      "\n```\nIt was rejected by the SQL safety validator with this error:\n",
      "\n\nYou MUST fix the query using ONLY the tables and columns in the schema below.\n\nALLOWED SCHEMA:\n",
      "\n\nRequirements:\n\nSingle SELECT statement only (no CTEs that modify data, no DDL/DML)\n\nUse only the tables and columns listed above\n\nNever invent new columns (e.g. do NOT use columns that are not in the lists)\n\nDo not use INSERT/UPDATE/DELETE/CREATE/DROP/ALTER/TRUNCATE\n\nInclude a LIMIT clause (the validator may normalize it)\n\nReturn ONLY the final PostgreSQL SELECT statement, ending with a semicolon.",
      by simp [repairPrompt, String.append_assoc]⟩

set_option maxRecDepth 8000 in
/-- Witness for C7: a first-attempt success returns immediately with one
successful record; a candidate the collaborator never repairs exhausts
`max_retries + 1 = 2` attempts and propagates the last rejection reason. -/
theorem c7_witness :
    validate_and_maybe_regenerate_sql parseDemo serializeDemo (fun _ => "x")
      sqlPlain "q" 5
      = .ok { sql := "SELECT id FROM properties LIMIT 100;",
              attempts := [{ attempt := 1, ok := true, error := none,
                             original_sql := sqlPlain,
                             cleaned_sql := some "SELECT id FROM properties;",
                             final_sql := some "SELECT id FROM properties LIMIT 100;" }] } ∧
    validate_and_maybe_regenerate_sql parseDemo serializeDemo
      (fun _ => "DROP it") "DROP it" "q" 1
      = .error "Only SELECT queries are allowed." := by
  constructor
  · exact (c7_repair_loop parseDemo serializeDemo (fun _ => "x") sqlPlain
      "q" 5).2.1 "SELECT id FROM properties LIMIT 100;"
      { original_sql := sqlPlain,
        cleaned_sql := "SELECT id FROM properties;",
        final_sql := "SELECT id FROM properties LIMIT 100;",
        checks_applied := ["clean_single_statement", "keyword_guard",
                           "table_column_whitelist", "limit_enforcer"] }
      (by rfl)
  · rfl

-- -----------------------------
-- C8: mutation-keyword classification override
-- -----------------------------

/-- C8 counterexample to the claim as stated: the message
`"delete map of plot 30"` matches the mutation-keyword pattern and the
override does classify it `irrelevant_question`, but the router's earlier
map-trigger priority sends the turn to `map_lookup`, not to the irrelevant
handler — so the turn does not end with the refusal reply and the no-SQL
marker. -/
theorem c8_counterexample :
    mutationMatch (lowerS "delete map of plot 30") = true ∧
    classify_property_query none "" "delete map of plot 30"
      = ("irrelevant_question",
         "Query attempts to modify or edit data, which is not allowed.") ∧
    (route_by_classification noteFlowReset (fun _ _ => 0)
        (some "30", some "30") "delete map of plot 30"
        (some "irrelevant_question")).1 = "map" :=
  ⟨by decide, by rfl, by rfl⟩

/-- C8 (amended): any message matching the mutation-keyword pattern is
classified `irrelevant_question` regardless of the upstream model's answer
(the override fires before the model is consulted); when no
higher-priority route fires (no active wizard step, no map trigger, no
note-summary trigger), that label routes the turn to the irrelevant
handler, which replies with the out-of-scope-prompted collaborator text and
sets the no-SQL marker and empty rows. -/
theorem c8_mutation_override_amended :
    (∀ (llmLabel : Option String) (llmReason : String) (q : String),
      mutationMatch (lowerS q) = true →
      classify_property_query llmLabel llmReason q
        = ("irrelevant_question",
           "Query attempts to modify or edit data, which is not allowed.")) ∧
    (∀ (flow : NoteFlow) (fuzz : String → String → Nat)
        (parsed : Option String × Option String) (q : String),
      flow.active = false → is_map_trigger q = false →
      is_note_summary_trigger fuzz q = false →
      route_by_classification flow fuzz parsed q (some "irrelevant_question")
        = ("irrelevant", flow)) ∧
    (∀ (llmOOS : String → String) (q : String),
      handle_irrelevant llmOOS q
        = { final_answer := llmOOS q,
            sql_query := "-- NO SQL (irrelevant_question)",
            sql_rows_empty := true, geometry_none := true }) := by
  refine ⟨?_, ?_, ?_⟩
  · intro llmLabel llmReason q h
    simp [classify_property_query, h]
  · intro flow fuzz parsed q hactive hmap hnote
    simp [route_by_classification, hactive, hmap, hnote]
    rfl
  · intro llmOOS q
    rfl

/-- Witness for C8's amended statement at the concrete message
`"please delete this record"` (no map/note trigger fires there). -/
theorem c8_witness :
    classify_property_query (some "property_talk") ""
      "please delete this record"
      = ("irrelevant_question",
         "Query attempts to modify or edit data, which is not allowed.") ∧
    route_by_classification noteFlowReset (fun _ _ => 0) (none, none)
      "please delete this record" (some "irrelevant_question")
      = ("irrelevant", noteFlowReset) :=
  ⟨(c8_mutation_override_amended.1 (some "property_talk") ""
      "please delete this record" (by decide)),
   (c8_mutation_override_amended.2.1 noteFlowReset (fun _ _ => 0) (none, none)
      "please delete this record" (by rfl) (by decide) (by decide))⟩

-- -----------------------------
-- C9: conversation memory focus updates
-- -----------------------------

/-- C9 counterexample to the claim as stated: with `focus_property.pra`
known (`some "PRA1"`), one `update_from_sql_rows` call whose first row
carries only a `file_name` key erases the known `pra` with a null — the
update replaces the focus dict wholesale instead of merging. -/
theorem c9_counterexample :
    (update_from_sql_rows
       { focus_property := some ⟨some "PRA1", some "F1"⟩,
         focus_person := none, last_sql_rows := [] }
       [{ pra := none, file_name := some (some "F2"), name := none }]).focus_property
      = some ⟨none, some "F2"⟩ := by rfl

theorem firstPersonVal_nonempty {l : List (Option String)} {p : String}
    (h : firstPersonVal l = some p) : p ≠ "" := by
  induction l with
  | nil => simp [firstPersonVal] at h
  | cons v rest ih =>
    cases v with
    | none => exact ih (by simpa [firstPersonVal] using h)
    | some s =>
      by_cases hs : pyStrip s ≠ ""
      · simp only [firstPersonVal, if_pos hs, Option.some.injEq] at h
        exact h ▸ hs
      · simp only [firstPersonVal, if_neg hs] at h
        exact ih h

theorem truthyS_isSome {x : Option String} (h : truthyS x = true) :
    x.isSome := by
  cases x <;> simp [truthyS] at h ⊢

theorem update_from_entities_focus (m : Mem) (ent : Option Entities) :
    (update_from_entities m ent).focus_property = m.focus_property ∨
    (update_from_entities m ent).focus_property
      = some ⟨(if truthyS (ent.getD {}).pra then (ent.getD {}).pra
               else m.focus_property.bind FocusProp.pra),
              (if truthyS (ent.getD {}).file_name then (ent.getD {}).file_name
               else m.focus_property.bind FocusProp.file_name)⟩ := by
  unfold update_from_entities
  cases hfp : firstPersonVal [(ent.getD {}).person_name,
      (ent.getD {}).owner_name, (ent.getD {}).name] <;>
    cases hany : (truthyS (ent.getD {}).pra ||
        truthyS (ent.getD {}).file_no || truthyS (ent.getD {}).file_name ||
        truthyS (ent.getD {}).plot_no || truthyS (ent.getD {}).road_no ||
        truthyS (ent.getD {}).area) <;>
    simp [hfp, hany]

theorem update_from_entities_person (m : Mem) (ent : Option Entities) :
    (update_from_entities m ent).focus_person
      = (match firstPersonVal [(ent.getD {}).person_name,
            (ent.getD {}).owner_name, (ent.getD {}).name] with
         | some p => some p
         | none => m.focus_person) := by
  unfold update_from_entities
  cases hfp : firstPersonVal [(ent.getD {}).person_name,
      (ent.getD {}).owner_name, (ent.getD {}).name] <;>
    cases hany : (truthyS (ent.getD {}).pra ||
        truthyS (ent.getD {}).file_no || truthyS (ent.getD {}).file_name ||
        truthyS (ent.getD {}).plot_no || truthyS (ent.getD {}).road_no ||
        truthyS (ent.getD {}).area) <;>
    simp [hfp, hany]

/-- C9 (amended): `update_from_entities` never erases a known focus field —
a non-null `focus_property.pra` or `.file_name` stays non-null, and
`focus_person` is only ever set to a non-empty (stripped) person-like value
there.  `update_from_sql_rows`, by contrast, replaces `focus_property`
wholesale with the first row's `pra`/`file_name` values whenever the row
carries either key (a missing or null field then erases a previously known
value), leaves it unchanged when the row carries neither key or the row
list is empty, and sets `focus_person` to the row's stripped `name` string
whenever one is present — including the empty string. -/
theorem c9_memory_focus_amended :
    (∀ (m : Mem) (ent : Option Entities),
      ((m.focus_property.bind FocusProp.pra).isSome →
        ((update_from_entities m ent).focus_property.bind FocusProp.pra).isSome) ∧
      ((m.focus_property.bind FocusProp.file_name).isSome →
        ((update_from_entities m ent).focus_property.bind
          FocusProp.file_name).isSome) ∧
      ((update_from_entities m ent).focus_person = m.focus_person ∨
        ∃ p, (update_from_entities m ent).focus_person = some p ∧ p ≠ "")) ∧
    (∀ (m : Mem), update_from_sql_rows m [] =
      { m with last_sql_rows := ([] : List SqlRow) }) ∧
    (∀ (m : Mem) (row : SqlRow) (rest : List SqlRow),
      (row.pra = none → row.file_name = none →
        (update_from_sql_rows m (row :: rest)).focus_property
          = m.focus_property) ∧
      ((row.pra.isSome ∨ row.file_name.isSome) →
        (update_from_sql_rows m (row :: rest)).focus_property
          = some ⟨row.pra.join, row.file_name.join⟩) ∧
      (∀ s, row.name = some (some s) →
        (update_from_sql_rows m (row :: rest)).focus_person
          = some (pyStrip s))) := by
  refine ⟨?_, ?_, ?_⟩
  · intro m ent
    refine ⟨?_, ?_, ?_⟩
    · intro hsome
      rcases update_from_entities_focus m ent with heq | heq
      · rw [heq]; exact hsome
      · rw [heq]
        by_cases htr : truthyS (ent.getD {}).pra = true
        · simpa [htr] using truthyS_isSome htr
        · simpa [htr] using hsome
    · intro hsome
      rcases update_from_entities_focus m ent with heq | heq
      · rw [heq]; exact hsome
      · rw [heq]
        by_cases htr : truthyS (ent.getD {}).file_name = true
        · simpa [htr] using truthyS_isSome htr
        · simpa [htr] using hsome
    · rw [update_from_entities_person m ent]
      cases hfp : firstPersonVal [(ent.getD {}).person_name,
          (ent.getD {}).owner_name, (ent.getD {}).name] with
      | none => exact Or.inl rfl
      | some p => exact Or.inr ⟨p, rfl, firstPersonVal_nonempty hfp⟩
  · intro m
    rfl
  · intro m row rest
    refine ⟨?_, ?_, ?_⟩
    · intro hpra hfn
      unfold update_from_sql_rows
      simp only [hpra, hfn, Option.isSome_none, Bool.or_self,
        Bool.false_eq_true, if_false]
      cases hname : row.name with
      | none => simp [hname]
      | some v => cases v <;> simp [hname]
    · intro hsome
      unfold update_from_sql_rows
      have hc : (row.pra.isSome || row.file_name.isSome) = true := by
        rcases hsome with h | h <;> simp [h]
      simp only [hc, if_true]
      cases hname : row.name with
      | none => simp [hname]
      | some v => cases v <;> simp [hname]
    · intro s hname
      unfold update_from_sql_rows
      cases hcond : (row.pra.isSome || row.file_name.isSome) <;>
        simp [hname, hcond]

/-- Witness for C9's amended statement at a concrete memory state. -/
theorem c9_witness :
    (((update_from_entities
        { focus_property := some ⟨some "PRA1", none⟩, focus_person := none,
          last_sql_rows := [] }
        (some { plot_no := some "30" })).focus_property.bind
          FocusProp.pra).isSome) ∧
    (update_from_sql_rows
        { focus_property := some ⟨some "PRA1", none⟩, focus_person := none,
          last_sql_rows := [] }
        [{ pra := some (some "PRA2"), file_name := none,
           name := some (some " Ravi ") }]).focus_property
      = some ⟨some "PRA2", none⟩ := by
  constructor
  · exact (c9_memory_focus_amended.1
      { focus_property := some ⟨some "PRA1", none⟩, focus_person := none,
        last_sql_rows := [] }
      (some { plot_no := some "30" })).1 (by rfl)
  · exact (c9_memory_focus_amended.2.2
      { focus_property := some ⟨some "PRA1", none⟩, focus_person := none,
        last_sql_rows := [] }
      { pra := some (some "PRA2"), file_name := none,
        name := some (some " Ravi ") } []).2.1 (Or.inl (by rfl))

-- -----------------------------
-- C4: zero/multiple/single-match branching of the note flows
-- -----------------------------

/-- C4: in the wizard's final step (`collect_road`) and in the single-shot
`note_summary_direct` flow — zero matching rows yield the "not found" reply
with no document generation; more than one row yields the disambiguation
reply listing every returned (truthy) PRA with no document generation;
exactly one row with an empty/null identifier yields the explicit
found-but-cannot-proceed reply and no document; exactly one usable row
triggers the document-generation call exactly once.  `collect_road` resets
wizard-active to false in every branch; `note_summary_direct` leaves the
wizard state it was handed untouched on the lookup branches, and the router
hands it the reset (inactive) state whenever it dispatches `note_direct`. -/
theorem c4_note_branching :
    (∀ (flow_plot : Option String) (raw_road matched_road : String)
       (pra_rows : List (Option String)) (pdf : String → String),
      (pra_rows = [] →
        (collect_road flow_plot raw_road matched_road pra_rows pdf).docGenCalls
            = 0 ∧
        (collect_road flow_plot raw_road matched_road pra_rows pdf).note_pra
            = none ∧
        (collect_road flow_plot raw_road matched_road pra_rows pdf).note_flow
            = noteFlowReset ∧
        (collect_road flow_plot raw_road matched_road pra_rows pdf).final_answer
            = "I couldn\x27t find any property for plot "
              ++ pyStrip (orDefault flow_plot "") ++ " and road "
              ++ pyStrip matched_road ++ "."
              ++ (if matched_road ≠ raw_road then
                    " (road interpreted as '" ++ matched_road ++ "' from DB)."
                  else "")
              ++ "\nPlease check if the numbers are correct and try again.") ∧
      (1 < pra_rows.length →
        (collect_road flow_plot raw_road matched_road pra_rows pdf).docGenCalls
            = 0 ∧
        (collect_road flow_plot raw_road matched_road pra_rows pdf).note_pra
            = none ∧
        (collect_road flow_plot raw_road matched_road pra_rows pdf).note_flow
            = noteFlowReset ∧
        (collect_road flow_plot raw_road matched_road pra_rows pdf).final_answer
            = "There are multiple properties for plot "
              ++ pyStrip (orDefault flow_plot "") ++ " and road "
              ++ pyStrip matched_road ++ ".\nMatching PRAs: "
              ++ prasListText pra_rows
              ++ ".\nPlease specify the exact PRA you want the note summary for.") ∧
      (∀ p, pra_rows = [p] → truthyS p = false →
        (collect_road flow_plot raw_road matched_road pra_rows pdf).docGenCalls
            = 0 ∧
        (collect_road flow_plot raw_road matched_road pra_rows pdf).note_flow
            = noteFlowReset ∧
        (collect_road flow_plot raw_road matched_road pra_rows pdf).final_answer
            = "I found one property for plot "
              ++ pyStrip (orDefault flow_plot "") ++ " and road "
              ++ pyStrip matched_road
              ++ ", but it does not have a PRA stored. I can\x27t generate the note summary.") ∧
      (∀ p, pra_rows = [p] → truthyS p = true →
        (collect_road flow_plot raw_road matched_road pra_rows pdf).docGenCalls
            = 1 ∧
        (collect_road flow_plot raw_road matched_road pra_rows pdf).note_pra
            = p ∧
        (collect_road flow_plot raw_road matched_road pra_rows pdf).note_flow
            = noteFlowReset ∧
        (collect_road flow_plot raw_road matched_road pra_rows pdf).final_answer
            = "note summary saved;")) ∧
    (∀ (flow : NoteFlow) (plot road : String) (p0 r0 : String)
       (pra_rows : List (Option String)) (pdf : String → String),
      p0 ≠ "" → r0 ≠ "" →
      ((pra_rows = [] →
        (note_summary_direct flow (some p0, some r0) plot road pra_rows pdf).docGenCalls
            = 0 ∧
        (note_summary_direct flow (some p0, some r0) plot road pra_rows pdf).note_flow
            = flow) ∧
      (1 < pra_rows.length →
        (note_summary_direct flow (some p0, some r0) plot road pra_rows pdf).docGenCalls
            = 0 ∧
        (note_summary_direct flow (some p0, some r0) plot road pra_rows pdf).note_flow
            = flow ∧
        (note_summary_direct flow (some p0, some r0) plot road pra_rows pdf).final_answer
            = "There are multiple properties for plot " ++ plot
              ++ " and road " ++ road ++ ".\nMatching PRAs: "
              ++ prasListText pra_rows
              ++ ".\nPlease specify the exact PRA you want the note summary for.") ∧
      (∀ p, pra_rows = [p] → truthyS p = false →
        (note_summary_direct flow (some p0, some r0) plot road pra_rows pdf).docGenCalls
            = 0) ∧
      (∀ p, pra_rows = [p] → truthyS p = true →
        (note_summary_direct flow (some p0, some r0) plot road pra_rows pdf).docGenCalls
            = 1 ∧
        (note_summary_direct flow (some p0, some r0) plot road pra_rows pdf).note_flow
            = flow ∧
        (note_summary_direct flow (some p0, some r0) plot road pra_rows pdf).final_answer
            = "note summary saved;"))) ∧
    (∀ (flow : NoteFlow) (fuzz : String → String → Nat)
       (parsed : Option String × Option String) (q : String)
       (label : Option String),
      (route_by_classification flow fuzz parsed q label).1 = "note_direct" →
      (route_by_classification flow fuzz parsed q label).2 = noteFlowReset) := by
  refine ⟨?_, ?_, ?_⟩
  · intro flow_plot raw_road matched_road pra_rows pdf
    refine ⟨?_, ?_, ?_, ?_⟩
    · intro h
      subst h
      exact ⟨rfl, rfl, rfl, rfl⟩
    · intro h
      have hne : pra_rows ≠ [] := by
        intro he
        rw [he] at h
        simp at h
      constructor
      · simp [collect_road, hne, h]
      constructor
      · simp [collect_road, hne, h]
      constructor
      · simp [collect_road, hne, h]
      · simp [collect_road, hne, h]
    · intro p hp htr
      subst hp
      refine ⟨?_, ?_, ?_⟩ <;> simp [collect_road, htr]
    · intro p hp htr
      subst hp
      refine ⟨?_, ?_, ?_, ?_⟩ <;> simp [collect_road, htr]
  · intro flow plot road p0 r0 pra_rows pdf hp0 hr0
    have hcase : ¬(p0 = "" ∨ r0 = "") := by
      rintro (h | h)
      · exact hp0 h
      · exact hr0 h
    refine ⟨?_, ?_, ?_, ?_⟩
    · intro h
      subst h
      constructor <;> simp [note_summary_direct, hcase]
    · intro h
      have hne : pra_rows ≠ [] := by
        intro he
        rw [he] at h
        simp at h
      refine ⟨?_, ?_, ?_⟩ <;> simp [note_summary_direct, hcase, hne, h]
    · intro p hp htr
      subst hp
      simp [note_summary_direct, hcase, htr]
    · intro p hp htr
      subst hp
      refine ⟨?_, ?_, ?_⟩ <;> simp [note_summary_direct, hcase, htr]
  · intro flow fuzz parsed q label h
    unfold route_by_classification at h ⊢
    by_cases h1 : flow.active = true ∧ flow.step = some "plot"
    · simp [h1] at h
    · by_cases h2 : flow.active = true ∧ flow.step = some "road"
      · simp [h1, h2] at h
      · by_cases h3 : is_map_trigger q = true
        · simp [h1, h2, h3] at h
        · by_cases h4 : is_note_summary_trigger fuzz q = true
          · simp only [h1, h2, h3, h4, Bool.false_eq_true, if_false, if_true] at h ⊢
            obtain ⟨pp, rr⟩ := parsed
            cases pp <;> cases rr <;> simp_all <;> split at h <;> simp_all
          · simp only [h1, h2, h3, h4, Bool.false_eq_true, if_false] at h ⊢
            by_cases h5 : pyStrip (label.getD "property_talk") = "small_talk" <;>
              by_cases h6 : pyStrip (label.getD "property_talk")
                  = "irrelevant_question" <;>
              simp [h5, h6] at h

/-- Witness for C4 at concrete inputs: two truthy matches disambiguate with
both PRAs listed and no document; one usable match generates exactly one
document and resets the wizard. -/
theorem c4_witness :
    (collect_road (some "30") "14" "14" [some "A", some "B"] id).docGenCalls
        = 0 ∧
    (collect_road (some "30") "14" "14" [some "A", some "B"] id).final_answer
        = "There are multiple properties for plot 30 and road 14.\nMatching PRAs: A, B.\nPlease specify the exact PRA you want the note summary for." ∧
    (collect_road (some "30") "14" "14" [some "PRA9"] id).docGenCalls = 1 ∧
    (collect_road (some "30") "14" "14" [some "PRA9"] id).note_flow.active
        = false := by
  have hmulti := ((c4_note_branching.1 (some "30") "14" "14"
    [some "A", some "B"] id).2.1 (by decide))
  have hone := ((c4_note_branching.1 (some "30") "14" "14"
    [some "PRA9"] id).2.2.2 (some "PRA9") rfl (by decide))
  refine ⟨hmulti.1, ?_, hone.1, by rw [hone.2.2.1]; rfl⟩
  rw [hmulti.2.2.2]
  rfl

-- -----------------------------
-- C3: map_lookup flow
-- -----------------------------

set_option maxRecDepth 20000 in
/-- C3 (code bug): the parse-failure branch does return the
format-explanation prompt, but on every parsed (plot, road) the flow can
never reach the geometry stage: the PRA-lookup SQL that
`lookup_pra_for_plot_road` builds selects the non-whitelisted column
`properties.pra_` (a typo — the wizard's own lookup selects `p.pra`), so
the guarded `run_select` raises before any lookup, and `map_lookup`
propagates that exception instead of branching; moreover the geometry query
of `fetch_map_for_pra` reads the non-whitelisted table `pbchs_map`, so even
a resolved identifier could never fetch geometry. -/
theorem c3_map_lookup_bug :
    map_lookup parseC3 serializeC3 (none, some "14") "" "" (fun _ => [])
        (fun _ => [])
      = .ok { final_answer :=
                "To show the property map, please tell me both the plot and road number, e.g. \x27show the map of plot 30 road 14\x27.",
              sql_query := "-- MAP_LOOKUP: could not parse plot/road",
              sql_rows_len := 0, geometry := none } ∧
    run_select parseC3 serializeC3 (lookup_pra_sql "30" "14") false
      = .error "Invalid SQL blocked by guardrails: Column 'properties.pra_' is not allowed." ∧
    map_lookup parseC3 serializeC3 (some "30", some "14") "30" "14"
        (fun _ => [some "X"]) (fun _ => [])
      = .error "Invalid SQL blocked by guardrails: Column 'properties.pra_' is not allowed." ∧
    run_select parseC3 serializeC3 (fetch_map_sql "23|18|Punjabi Bagh East")
        false
      = .error "Invalid SQL blocked by guardrails: Table 'pbchs_map' is not in the allowed whitelist." :=
  ⟨by rfl, by rfl, by rfl, by rfl⟩

-- -----------------------------
-- C10: idempotence of the validation pipeline
-- -----------------------------

theorem head_dropWhile_false (p : Char → Bool) (l : List Char) :
    ∀ c ∈ (l.dropWhile p).head?, p c = false := by
  induction l with
  | nil => simp
  | cons c t ih =>
    by_cases h : p c = true
    · simpa [List.dropWhile_cons, h] using ih
    · have h' : p c = false := by
        cases hc : p c
        · rfl
        · exact absurd hc h
      simp [List.dropWhile_cons, h']

theorem dropWhile_eq_self_of_head (p : Char → Bool) (l : List Char)
    (h : ∀ c ∈ l.head?, p c = false) : l.dropWhile p = l := by
  cases l with
  | nil => rfl
  | cons c t => simp [List.dropWhile_cons, h c (by simp)]

theorem lstripL_head_false (l : List Char) :
    ∀ c ∈ (lstripL l).head?, pySpace c = false :=
  head_dropWhile_false pySpace l

theorem rstripL_getLast_false (l : List Char) :
    ∀ c ∈ (rstripL l).getLast?, pySpace c = false := by
  intro c hc
  unfold rstripL at hc
  rw [List.getLast?_reverse] at hc
  exact head_dropWhile_false pySpace l.reverse c hc

theorem rstripL_head_eq (l : List Char) (h : rstripL l ≠ []) :
    (rstripL l).head? = l.head? := by
  obtain ⟨t, ht⟩ : rstripL l <+: l := by
    unfold rstripL
    rw [← List.reverse_suffix]
    simpa using List.dropWhile_suffix pySpace
  conv_rhs => rw [← ht]
  exact (List.head?_append_of_ne_nil _ h).symm

theorem stripL_eq_self (l : List Char)
    (hh : ∀ c ∈ l.head?, pySpace c = false)
    (hl : ∀ c ∈ l.getLast?, pySpace c = false) : stripL l = l := by
  unfold stripL
  rw [show lstripL l = l from dropWhile_eq_self_of_head pySpace l hh]
  unfold rstripL
  rw [dropWhile_eq_self_of_head pySpace l.reverse
    (by intro c hc; rw [List.head?_reverse] at hc; exact hl c hc)]
  exact List.reverse_reverse l

theorem stripL_head_false (l : List Char) :
    ∀ c ∈ (stripL l).head?, pySpace c = false := by
  intro c hc
  unfold stripL at hc
  by_cases hne : rstripL (lstripL l) = []
  · rw [hne] at hc; cases hc
  · rw [rstripL_head_eq _ hne] at hc
    exact lstripL_head_false l c hc

theorem stripL_getLast_false (l : List Char) :
    ∀ c ∈ (stripL l).getLast?, pySpace c = false :=
  fun c hc => rstripL_getLast_false (lstripL l) c hc

theorem stripL_idem (l : List Char) : stripL (stripL l) = stripL l :=
  stripL_eq_self _ (stripL_head_false l) (stripL_getLast_false l)

theorem head_eq_of_stripL_self {N : List Char} (h : stripL N = N) :
    ∀ c ∈ N.head?, pySpace c = false := by
  intro c hc
  rw [← h] at hc
  exact stripL_head_false N c hc

theorem getLast_eq_of_stripL_self {N : List Char} (h : stripL N = N) :
    ∀ c ∈ N.getLast?, pySpace c = false := by
  intro c hc
  rw [← h] at hc
  exact stripL_getLast_false N c hc

theorem enforceRaw_concat_semi (N : List Char) (hstrip : stripL N = N)
    (hne : N ≠ []) : enforceRaw (String.mk (N ++ [';'])) = N := by
  unfold enforceRaw
  have hdata : (String.mk (N ++ [';'])).data = N ++ [';'] := rfl
  rw [hdata]
  have hself : stripL (N ++ [';']) = N ++ [';'] := by
    apply stripL_eq_self
    · intro c hc
      rw [List.head?_append_of_ne_nil _ hne] at hc
      exact head_eq_of_stripL_self hstrip c hc
    · intro c hc
      rw [List.getLast?_concat] at hc
      cases hc
      rfl
  rw [hself]
  show (if (N ++ [';']).getLast? = some ';' then
          stripL (N ++ [';']).dropLast
        else N ++ [';']) = N
  rw [List.getLast?_concat]
  simp only [if_pos rfl, List.dropLast_concat]
  exact hstrip

theorem enforceRaw_concat_limit (N : List Char) (hstrip : stripL N = N)
    (hne : N ≠ []) :
    enforceRaw (String.mk (N ++ ( " LIMIT 100;".data)))
      = N ++ ( " LIMIT 100".data) := by
  have hsplit : ( " LIMIT 100;".data) = ( " LIMIT 100".data) ++ [';'] := by
    decide
  have hassoc : N ++ (( " LIMIT 100".data) ++ [';'])
      = (N ++ ( " LIMIT 100".data)) ++ [';'] := (List.append_assoc _ _ _).symm
  have hne2 : N ++ ( " LIMIT 100".data) ≠ [] := by
    intro h
    exact hne (List.append_eq_nil.mp h).1
  have hstrip2 : stripL (N ++ ( " LIMIT 100".data))
      = N ++ ( " LIMIT 100".data) := by
    apply stripL_eq_self
    · intro c hc
      rw [List.head?_append_of_ne_nil _ hne] at hc
      exact head_eq_of_stripL_self hstrip c hc
    · intro c hc
      have hs2 : ( " LIMIT 100".data) = ( " LIMIT 10".data) ++ ['0'] := by
        decide
      rw [hs2, ← List.append_assoc, List.getLast?_concat] at hc
      cases hc
      rfl
  unfold enforceRaw
  have hdata : (String.mk (N ++ ( " LIMIT 100;".data))).data
      = (N ++ ( " LIMIT 100".data)) ++ [';'] := by
    show N ++ ( " LIMIT 100;".data) = _
    rw [hsplit, hassoc]
  rw [hdata]
  have hself : stripL ((N ++ ( " LIMIT 100".data)) ++ [';'])
      = (N ++ ( " LIMIT 100".data)) ++ [';'] := by
    apply stripL_eq_self
    · intro c hc
      rw [List.head?_append_of_ne_nil _ hne2,
        List.head?_append_of_ne_nil _ hne] at hc
      exact head_eq_of_stripL_self hstrip c hc
    · intro c hc
      rw [List.getLast?_concat] at hc
      cases hc
      rfl
  rw [hself]
  show (if ((N ++ ( " LIMIT 100".data)) ++ [';']).getLast? = some ';' then
          stripL ((N ++ ( " LIMIT 100".data)) ++ [';']).dropLast
        else (N ++ ( " LIMIT 100".data)) ++ [';']) = N ++ ( " LIMIT 100".data)
  rw [List.getLast?_concat]
  simp only [if_pos rfl, List.dropLast_concat]
  exact hstrip2

theorem hasWordCIAux_limit_base :
    ∀ prev, hasWordCIAux ( "limit".data) prev ( " LIMIT 100".data) = true := by
  intro prev
  have hstep : hasWordCIAux ( "limit".data) (some ' ') ( "LIMIT 100".data)
      = true := by decide
  have hB : ciPrefix ( "limit".data) (' ' :: ( "LIMIT 100".data)) = false := by
    decide
  rw [show ( " LIMIT 100".data) = ' ' :: ( "LIMIT 100".data) from by decide]
  rw [hasWordCIAux.eq_def]
  simp [hB, hstep]

theorem hasWordCIAux_limit_append (N : List Char) :
    ∀ prev, hasWordCIAux ( "limit".data) prev (N ++ ( " LIMIT 100".data))
      = true := by
  induction N with
  | nil => simpa using hasWordCIAux_limit_base
  | cons c t ih =>
    intro prev
    rw [List.cons_append, hasWordCIAux.eq_def]
    simp [ih (some c)]

theorem hasWordCI_limit_append (N : List Char) :
    hasWordCI ( "limit".data) (N ++ ( " LIMIT 100".data)) = true :=
  hasWordCIAux_limit_append N none

/-- C10: the validation pipeline is idempotent on its own output —
`validate(validate(sql).sql).sql = validate(sql).sql` — given the
canonicity facts about the external sqlglot parser/serializer pair at the
produced statement (reparsing the safe output yields a tree that passes the
whitelist again; reparsing the serializer's text yields the same tree; the
serializer's text is non-empty, carries the word LIMIT exactly when the
validated statement did, and serializing the reparsed LIMIT-appended
statement reproduces its text).  Everything the pipeline itself does —
fence cleaning, the keyword guard, the branch taken by the limit stage on
the second pass, and the exact equality of the two outputs — is derived,
not assumed. -/
theorem c10_validate_idempotent (parse : String → Except String SqlNode)
    (serialize : SqlNode → String) (sql out : String) (dbg : CvsDebug)
    (ast2 astr astL : SqlNode)
    (hv : clean_and_validate_sql parse serialize sql = .ok (out, dbg))
    (hclean2 : clean_sql_one_statement out = .ok out)
    (hkw2 : cheap_keyword_guard out = .ok ())
    (hp2 : parse out = .ok ast2)
    (hg2 : guard_tables_and_columns (astOf ast2) = .ok ())
    (hpr : parse (String.mk (enforceRaw dbg.cleaned_sql)) = .ok astr)
    (hNne : (stripS (serialize astr)).data ≠ [])
    (hrtN : parse (stripS (serialize astr)) = .ok astr)
    (hNw : hasWordCI ( "limit".data) (stripS (serialize astr)).data
        = hasWordCI ( "limit".data) (enforceRaw dbg.cleaned_sql))
    (hrtL : parse (stripS (serialize astr) ++ " LIMIT 100") = .ok astL)
    (hserL : stripS (serialize astL)
        = stripS (serialize astr) ++ " LIMIT 100") :
    clean_and_validate_sql parse serialize out
      = .ok (out,
             { original_sql := out, cleaned_sql := out, final_sql := out,
               checks_applied := ["clean_single_statement", "keyword_guard",
                 "table_column_whitelist", "limit_enforcer"] }) := by
  -- Invert the first pass, stage by stage.
  unfold clean_and_validate_sql at hv
  cases hc1 : clean_sql_one_statement sql with
  | error e => rw [hc1] at hv; simp at hv
  | ok c =>
  rw [hc1] at hv
  dsimp only at hv
  cases hk1 : cheap_keyword_guard c with
  | error e => rw [hk1] at hv; simp at hv
  | ok u =>
  cases u
  rw [hk1] at hv
  dsimp only at hv
  cases hp1 : parse c with
  | error e => rw [hp1] at hv; simp at hv
  | ok ast1 =>
  rw [hp1] at hv
  dsimp only at hv
  cases hg1 : guard_tables_and_columns (astOf ast1) with
  | error e => rw [hg1] at hv; simp at hv
  | ok u2 =>
  cases u2
  rw [hg1] at hv
  dsimp only at hv
  cases hl1 : enforce_limit parse serialize c with
  | error e => rw [hl1] at hv; simp at hv
  | ok lim =>
  rw [hl1] at hv
  dsimp only at hv
  simp only [Except.ok.injEq, Prod.mk.injEq] at hv
  obtain ⟨hlim_out, hdbg⟩ := hv
  have hcs : dbg.cleaned_sql = c := by rw [← hdbg]
  rw [hcs] at hpr hNw
  subst hlim_out
  -- Shape analysis of the first pass's limit stage.
  have hstripN : stripL (stripS (serialize astr)).data
      = (stripS (serialize astr)).data := by
    show stripL (stripL (serialize astr).data) = stripL (serialize astr).data
    exact stripL_idem _
  unfold enforce_limit at hl1
  -- The second pass reduces to the limit-stage fixpoint.
  have hmain : enforce_limit parse serialize lim = .ok lim →
      clean_and_validate_sql parse serialize lim
        = .ok (lim,
               { original_sql := lim, cleaned_sql := lim, final_sql := lim,
                 checks_applied := ["clean_single_statement", "keyword_guard",
                   "table_column_whitelist", "limit_enforcer"] }) := by
    intro henf
    unfold clean_and_validate_sql
    rw [hclean2]
    dsimp only
    rw [hkw2]
    dsimp only
    rw [hp2]
    dsimp only
    rw [hg2]
    dsimp only
    rw [henf]
  apply hmain
  by_cases hW : hasWordCI ( "limit".data) (enforceRaw c) = true
  · -- keep-branch: lim = N ++ ";"
    rw [if_pos hW] at hl1
    rw [hpr] at hl1
    dsimp only at hl1
    simp only [Except.ok.injEq] at hl1
    subst hl1
    show (if hasWordCI ( "limit".data)
            (enforceRaw (stripS (serialize astr) ++ ";")) = true then _ else _)
        = _
    have hraw : enforceRaw (stripS (serialize astr) ++ ";")
        = (stripS (serialize astr)).data :=
      enforceRaw_concat_semi (stripS (serialize astr)).data hstripN hNne
    rw [hraw, hNw, if_pos hW, hrtN]
  · -- no LIMIT in the statement
    rw [if_neg hW] at hl1
    rw [hpr] at hl1
    dsimp only at hl1
    cases hms : mainSelect astr with
    | none => rw [hms] at hl1; simp at hl1
    | some sel =>
    rw [hms] at hl1
    dsimp only at hl1
    have hWf : hasWordCI ( "limit".data) (enforceRaw c) = false := by
      cases hx : hasWordCI ( "limit".data) (enforceRaw c)
      · rfl
      · exact absurd hx hW
    by_cases hagg : hasAggNode sel = true
    · -- aggregate branch: lim = N ++ ";"
      rw [if_pos hagg] at hl1
      simp only [Except.ok.injEq] at hl1
      subst hl1
      show (if hasWordCI ( "limit".data)
              (enforceRaw (stripS (serialize astr) ++ ";")) = true then _ else _)
          = _
      have hraw : enforceRaw (stripS (serialize astr) ++ ";")
          = (stripS (serialize astr)).data :=
        enforceRaw_concat_semi (stripS (serialize astr)).data hstripN hNne
      rw [hraw, hNw, hWf, if_neg (by simp), hrtN]
      dsimp only
      rw [hms]
      dsimp only
      rw [if_pos hagg]
    · -- append branch: lim = N ++ " LIMIT 100;"
      have haggf : hasAggNode sel = false := by
        cases hx : hasAggNode sel
        · rfl
        · exact absurd hx hagg
      rw [if_neg hagg] at hl1
      simp only [Except.ok.injEq] at hl1
      subst hl1
      have hdata : (stripS (serialize astr) ++ " LIMIT " ++ toString 100
            ++ ";").data
          = (stripS (serialize astr)).data ++ ( " LIMIT 100;".data) := by
        show (((stripS (serialize astr)).data ++ ( " LIMIT ".data))
            ++ (toString (100 : Nat)).data) ++ ( ";".data) = _
        rw [List.append_assoc, List.append_assoc]
        exact congrArg (fun x => (stripS (serialize astr)).data ++ x)
          (by decide)
      have hout_eq : stripS (serialize astr) ++ " LIMIT " ++ toString 100 ++ ";"
          = String.mk ((stripS (serialize astr)).data ++ ( " LIMIT 100;".data)) :=
        String.ext hdata
      rw [hout_eq]
      show (if hasWordCI ( "limit".data)
              (enforceRaw (String.mk ((stripS (serialize astr)).data
                ++ ( " LIMIT 100;".data)))) = true then _ else _) = _
      rw [enforceRaw_concat_limit (stripS (serialize astr)).data hstripN hNne]
      rw [hasWordCI_limit_append]
      rw [if_pos rfl]
      have hparse_arg : String.mk ((stripS (serialize astr)).data
            ++ ( " LIMIT 100".data))
          = stripS (serialize astr) ++ " LIMIT 100" := rfl
      rw [hparse_arg, hrtL]
      dsimp only
      rw [hserL]
      congr 1
      apply String.ext
      show (((stripS (serialize astr)).data ++ ( " LIMIT 100".data))
          ++ ( ";".data))
        = (stripS (serialize astr)).data ++ ( " LIMIT 100;".data)
      rw [List.append_assoc]
      exact congrArg (fun x => (stripS (serialize astr)).data ++ x)
        (by decide)

set_option maxRecDepth 20000 in
/-- Witness for C10 at the demo pipeline: validating the validated output
of `sqlPlain` returns that output unchanged. -/
theorem c10_witness :
    clean_and_validate_sql parseDemo serializeDemo
        "SELECT id FROM properties LIMIT 100;"
      = .ok ("SELECT id FROM properties LIMIT 100;",
             { original_sql := "SELECT id FROM properties LIMIT 100;",
               cleaned_sql := "SELECT id FROM properties LIMIT 100;",
               final_sql := "SELECT id FROM properties LIMIT 100;",
               checks_applied := ["clean_single_statement", "keyword_guard",
                 "table_column_whitelist", "limit_enforcer"] }) :=
  c10_validate_idempotent parseDemo serializeDemo sqlPlain
    "SELECT id FROM properties LIMIT 100;"
    { original_sql := sqlPlain, cleaned_sql := "SELECT id FROM properties;",
      final_sql := "SELECT id FROM properties LIMIT 100;",
      checks_applied := ["clean_single_statement", "keyword_guard",
        "table_column_whitelist", "limit_enforcer"] }
    astPlain100 astPlain astPlain100
    (by rfl) (by rfl) (by rfl) (by rfl) (by rfl) (by rfl)
    (by decide) (by rfl) (by decide) (by rfl) (by rfl)

end PBCHS
